import Mathlib

/-!
Shallow embedding of the crypto-scanner analytic engine
(`SupportResistanceAnalyzer`, `PatternAnalyzer`, `SmartMoneyAnalyzer`,
`ElliottWaveAnalyzer`) and proofs about it.

Modeling conventions:
* JavaScript numbers are modeled as exact rationals (`ℚ`); floating-point
  rounding is out of scope.  Where the source can divide by zero, JavaScript
  produces `NaN`/`±Infinity` (never a fault); each such site is embedded so
  that the boolean the source derives from the quotient matches JavaScript,
  and carries a comment.  In `ℚ`, `x / 0 = 0`.
* Array accesses `a[i]` that can yield `undefined` followed by a property
  access (a `TypeError` fault in JavaScript) are modeled in `Option`;
  accesses whose indexes are in bounds on every reachable path are modeled
  with `getD`/`getLastD` and a justifying comment.
* `Array.prototype.sort` is stable; it is modeled by a stable insertion sort.
* `for` loops over index ranges become `List.range'`/`List.range` maps;
  loops that `break` on first hit become `List.any`; accumulating loops
  become sums or folds.
* Enumerated string constants of the source (pattern names, wave labels,
  rule descriptions) are modeled as inductive types.
-/

attribute [local semireducible] Rat.add Rat.sub Rat.mul Rat.inv

/-- Stable insertion used to model JavaScript `Array.prototype.sort` (which is
specified to be stable).  `lt a b` means the comparator puts `a` strictly
before `b`; an element is inserted after every element strictly before it, so
original order is kept among comparator-equal elements. -/
def insertStable (lt : α → α → Bool) (x : α) : List α → List α
  | [] => [x]
  | y :: ys => if lt y x then y :: insertStable lt x ys else x :: y :: ys

/-- Stable sort from `insertStable`. -/
def sortStable (lt : α → α → Bool) : List α → List α
  | [] => []
  | x :: xs => insertStable lt x (sortStable lt xs)

/-- Model of `arr.sort((a, b) => key(b) - key(a))`: stable, descending by key. -/
def sortByKeyDesc (key : α → ℚ) (l : List α) : List α :=
  sortStable (fun a b => decide (key b < key a)) l

/-- Model of `arr.sort((a, b) => key(a) - key(b))`: stable, ascending by key. -/
def sortByKeyAsc (key : α → ℚ) (l : List α) : List α :=
  sortStable (fun a b => decide (key a < key b)) l

/-- Model of `Math.max(...l)` at the call sites below, all of which pass a
nonempty list (JavaScript yields `-Infinity` on an empty spread; the `0`
default here is never observed on a reachable path). -/
def jsMax : List ℚ → ℚ
  | [] => 0
  | x :: xs => xs.foldl max x

/-- Model of `Math.min(...l)`; see `jsMax` for the empty-list convention. -/
def jsMin : List ℚ → ℚ
  | [] => 0
  | x :: xs => xs.foldl min x

/-- Model of `Math.round`: halves round toward positive infinity. -/
def jsRound (q : ℚ) : ℤ := ⌊q + 1/2⌋

/-- One OHLCV candle.  The JS field `open` is a Lean keyword and is rendered
`openP`. -/
structure Candle where
  time : ℚ
  openP : ℚ
  high : ℚ
  low : ℚ
  close : ℚ
  volume : ℚ
deriving DecidableEq

instance : Inhabited Candle := ⟨⟨0, 0, 0, 0, 0, 0⟩⟩

/-- Swing kind tag (source uses the strings `'high'` and `'low'`); shared by
the pattern analyzer and the Elliott-wave analyzer. -/
inductive SwingKind where
  | high
  | low
deriving DecidableEq

instance : Inhabited SwingKind := ⟨.high⟩

namespace SupportResistanceAnalyzer

/-- Constructor field `this.minTouchCount`. -/
def minTouchCount : ℕ := 2

/-- Constructor field `this.priceTolerancePercent` (0.5% tolerance). -/
def priceTolerancePercent : ℚ := 1/2

/-- Constructor field `this.volumeWeightFactor`. -/
def volumeWeightFactor : ℚ := 3/10

/-- The fixed `lookback = 5` of `findPivotPoints`. -/
def lookback : ℕ := 5

/-- A pivot point record `{index, price, time, volume}`. -/
structure PivotPoint where
  index : ℕ
  price : ℚ
  time : ℚ
  volume : ℚ
deriving DecidableEq

instance : Inhabited PivotPoint := ⟨⟨0, 0, 0, 0⟩⟩

/-- Return value of `findPivotPoints`. -/
structure PivotPoints where
  highs : List PivotPoint
  lows : List PivotPoint
deriving DecidableEq

/-- A cluster `{avgPrice, points}` built by `clusterPivotPoints`. -/
structure Cluster where
  avgPrice : ℚ
  points : List PivotPoint
deriving DecidableEq

/-- The `type` tag of a level (source uses string constants). -/
inductive LevelKind where
  | support
  | resistance
  | psychological
  | volume
deriving DecidableEq

/-- A support/resistance/psychological/volume level.  JS objects for
psychological and volume levels carry no `firstTouch`/`lastTouch` keys and
psychological levels no `volume` key; missing keys are `none`. -/
structure Level where
  price : ℚ
  touches : ℕ
  strength : ℚ
  firstTouch : Option ℚ
  lastTouch : Option ℚ
  volume : Option ℚ
  type : LevelKind
  isRecent : Bool
  isRelevant : Bool
deriving DecidableEq

/-- Return value of `findLevels`. -/
structure Levels where
  support : List Level
  resistance : List Level
  pivotPoints : PivotPoints
  keyLevels : List Level
deriving DecidableEq

/-- Index set of the JS loop `for (i = lookback; i < data.length - lookback)`;
Nat truncation makes the range empty exactly when the loop does not run. -/
def pivotIndexes (data : List Candle) : List ℕ :=
  List.range' lookback (data.length - 2 * lookback)

/-- `findPivotPoints`: weak (`≤`/`≥`) window-extremum test over a centered
window of `2*lookback+1` candles.  `segment.getD lookback` is `segment[lookback]`,
in bounds for every generated index. -/
def findPivotPoints (data : List Candle) : PivotPoints :=
  let highs := (pivotIndexes data).filterMap fun i =>
    let segment := (data.drop (i - lookback)).take (2 * lookback + 1)
    let current := segment.getD lookback default
    if segment.enum.all fun p => p.1 == lookback || decide (p.2.high ≤ current.high) then
      some { index := i, price := current.high, time := current.time, volume := current.volume }
    else none
  let lows := (pivotIndexes data).filterMap fun i =>
    let segment := (data.drop (i - lookback)).take (2 * lookback + 1)
    let current := segment.getD lookback default
    if segment.enum.all fun p => p.1 == lookback || decide (current.low ≤ p.2.low) then
      some { index := i, price := current.low, time := current.time, volume := current.volume }
    else none
  { highs := highs, lows := lows }

/-- The relative clustering tolerance `this.priceTolerancePercent / 100`. -/
def tolerance : ℚ := priceTolerancePercent / 100

/-- Inner loop of `clusterPivotPoints`: scan clusters in creation order and
join the first one whose running mean is within tolerance, recomputing that
cluster's mean over all members; `none` when no cluster accepts the pivot. -/
def addToFirstCluster (pivot : PivotPoint) : List Cluster → Option (List Cluster)
  | [] => none
  | c :: cs =>
    if |pivot.price - c.avgPrice| / c.avgPrice ≤ tolerance then
      let points := c.points ++ [pivot]
      some ({ avgPrice := (points.map (·.price)).sum / (points.length : ℚ),
              points := points } :: cs)
    else
      (addToFirstCluster pivot cs).map (c :: ·)

/-- One step of the pivot loop of `clusterPivotPoints`. -/
def clusterStep (clusters : List Cluster) (pivot : PivotPoint) : List Cluster :=
  match addToFirstCluster pivot clusters with
  | some cs => cs
  | none => clusters ++ [{ avgPrice := pivot.price, points := [pivot] }]

/-- `clusterPivotPoints`: greedy order-dependent single pass. -/
def clusterPivotPoints (pivots : List PivotPoint) : List Cluster :=
  pivots.foldl clusterStep []

/-- `countTouches` with its default `tolerance = 0.005`; the JS `touches++`
loop is the length of a filter. -/
def countTouches (level : ℚ) (data : List Candle) : ℕ :=
  (data.filter fun candle =>
    decide (|candle.high - level| / level ≤ 5/1000) ||
    decide (|candle.low - level| / level ≤ 5/1000) ||
    decide (|candle.close - level| / level ≤ 5/1000)).length

/-- `isRecentLevel`.  `recentPeriod = Math.min(50, data.length * 0.2)` is used
as `slice(-recentPeriod)`, whose argument is truncated; `data.length / 5`
(Nat division) is that truncation.  (For `data.length < 5` JS `slice(-0)`
would return the whole array, but every caller has pivot clusters and hence
`data.length ≥ 11`, so that path is unreachable.) -/
def isRecentLevel (level : Level) (data : List Candle) : Bool :=
  let recentPeriod := min 50 (data.length / 5)
  let recentData := data.drop (data.length - recentPeriod)
  recentData.any fun candle =>
    decide (|candle.high - level.price| / level.price ≤ 1/100) ||
    decide (|candle.low - level.price| / level.price ≤ 1/100)

/-- `isRelevantLevel`: within 15% of the latest close.  The JS
`data[data.length - 1]` is in bounds at every call site (callers hold a
nonempty cluster, hence `data.length ≥ 11`), so `getLastD` is faithful. -/
def isRelevantLevel (level : Level) (data : List Candle) : Bool :=
  let currentPrice := (data.getLastD default).close
  decide (|level.price - currentPrice| / currentPrice ≤ 15/100)

/-- Shared body of `identifySupportLevels`/`identifyResistanceLevels`: keep
clusters with at least `minTouchCount` members, build the level record, then
sort by the (still untouched, all-zero) `strength` field. -/
def levelsFromClusters (kind : LevelKind) (clusters : List Cluster)
    (ohlcData : List Candle) : List Level :=
  let levels := clusters.filterMap fun cluster =>
    if minTouchCount ≤ cluster.points.length then
      let level : Level := {
        price := cluster.avgPrice
        touches := cluster.points.length
        strength := 0
        firstTouch := some (jsMin (cluster.points.map (·.time)))
        lastTouch := some (jsMax (cluster.points.map (·.time)))
        volume := some ((cluster.points.map (·.volume)).sum / (cluster.points.length : ℚ))
        type := kind
        isRecent := false
        isRelevant := false }
      some { level with
        isRecent := isRecentLevel level ohlcData
        isRelevant := isRelevantLevel level ohlcData }
    else none
  sortByKeyDesc (fun l => l.strength) levels

/-- `identifySupportLevels`. -/
def identifySupportLevels (pivotLows : List PivotPoint) (ohlcData : List Candle) : List Level :=
  levelsFromClusters .support (clusterPivotPoints pivotLows) ohlcData

/-- `identifyResistanceLevels`. -/
def identifyResistanceLevels (pivotHighs : List PivotPoint) (ohlcData : List Candle) : List Level :=
  levelsFromClusters .resistance (clusterPivotPoints pivotHighs) ohlcData

/-- Step selection of `generateRoundNumbers`, keyed on its `maxPrice`
argument (which callers pass as 1.2 times the latest close). -/
def roundStep (maxPrice : ℚ) : ℚ :=
  if maxPrice < 1 then 1/100
  else if maxPrice < 10 then 1/10
  else if maxPrice < 100 then 1
  else if maxPrice < 1000 then 10
  else 100

/-- `generateRoundNumbers`.  The JS loop
`for (price = Math.floor(minPrice/step)*step; price <= maxPrice; price += step)`
is an arithmetic progression; its iteration count is
`⌊(maxPrice - start)/step⌋ + 1` when `start ≤ maxPrice` (the step is one of
the positive constants of `roundStep`).  The `if (price > 0)` guard is the
final filter. -/
def generateRoundNumbers (minPrice maxPrice : ℚ) : List ℚ :=
  let step := roundStep maxPrice
  let start : ℚ := (⌊minPrice / step⌋ : ℤ) * step
  let count := if start ≤ maxPrice then (⌊(maxPrice - start) / step⌋ + 1).toNat else 0
  ((List.range count).map fun k => start + (k : ℚ) * step).filter fun price =>
    decide (0 < price)

/-- `findPsychologicalLevels`.  `data[data.length - 1].close` faults on an
empty series, hence the `Option`. -/
def findPsychologicalLevels (data : List Candle) : Option (List Level) := do
  let lastCandle ← data.getLast?
  let currentPrice := lastCandle.close
  let priceRange := currentPrice * (2/10)
  let roundNumbers := generateRoundNumbers (currentPrice - priceRange) (currentPrice + priceRange)
  pure <| roundNumbers.filterMap fun roundPrice =>
    -- the source binds `touchCount` before the test; the binding is placed
    -- inside the branch here (an equivalent reordering of a pure binding)
    if 2 ≤ countTouches roundPrice data then
      let touchCount := countTouches roundPrice data
      some { price := roundPrice, touches := touchCount,
             strength := (touchCount : ℚ) * 10,
             firstTouch := none, lastTouch := none, volume := none,
             type := .psychological, isRecent := true, isRelevant := true }
    else none

/-- One bin of the volume profile. -/
structure VolumeNode where
  price : ℚ
  volume : ℚ
  binLow : ℚ
  binHigh : ℚ
deriving DecidableEq

instance : Inhabited VolumeNode := ⟨⟨0, 0, 0, 0⟩⟩

/-- `calculateVolumeProfile` with its default `bins = 50`.  The inner loop
over candles accumulates volume; a zero-range candle takes the explicit
full-attribution fallback (`volumeRatio = 1`).  On an empty series JS
produces infinite bounds without faulting; that path is unreachable through
`findLevels` (which faults earlier) and the defaults of `jsMax`/`jsMin` are
never observed. -/
def calculateVolumeProfile (data : List Candle) : List VolumeNode :=
  let bins : ℕ := 50
  let priceRange := jsMax (data.map (·.high)) - jsMin (data.map (·.low))
  let binSize := priceRange / (bins : ℚ)
  let minPrice := jsMin (data.map (·.low))
  (List.range bins).map fun i =>
    let binLow := minPrice + (i : ℚ) * binSize
    let binHigh := binLow + binSize
    let binMid := (binLow + binHigh) / 2
    let totalVolume := (data.map fun candle =>
      if candle.low ≤ binHigh ∧ binLow ≤ candle.high then
        let overlap := min candle.high binHigh - max candle.low binLow
        let candleRange := candle.high - candle.low
        let volumeRatio := if 0 < candleRange then overlap / candleRange else 1
        candle.volume * volumeRatio
      else 0).sum
    { price := binMid, volume := totalVolume, binLow := binLow, binHigh := binHigh }

/-- `findVolumeLevels`.  `Math.floor(sortedByVolume.length * 0.1)` is
`length / 10` (Nat division); the profile always has exactly 50 bins, so the
JS index `sortedByVolume[5]` is always in bounds and `getD` is faithful.
Note: unlike support/resistance/psychological levels, no minimum touch count
is enforced here. -/
def findVolumeLevels (data : List Candle) : List Level :=
  let volumeProfile := calculateVolumeProfile data
  let sortedByVolume := sortByKeyDesc (fun n => n.volume) volumeProfile
  let highVolumeThreshold := (sortedByVolume.getD (sortedByVolume.length / 10) default).volume
  volumeProfile.filterMap fun node =>
    if highVolumeThreshold ≤ node.volume then
      some { price := node.price, touches := countTouches node.price data,
             strength := node.volume / 1000,
             firstTouch := none, lastTouch := none, volume := some node.volume,
             type := .volume, isRecent := true, isRelevant := true }
    else none

/-- `calculateLevelStrength`.  `ohlcData[ohlcData.length - 1].close` faults
on an empty series, hence the `Option`.  The `if (level.volume)` truthiness
test is false for a missing key and for `0`. -/
def calculateLevelStrength (levels : List Level) (ohlcData : List Candle) :
    Option (List Level) := do
  let lastCandle ← ohlcData.getLast?
  let currentPrice := lastCandle.close
  pure <| levels.map fun level =>
    let s1 : ℚ := (level.touches : ℚ) * 15
    let s2 : ℚ :=
      match level.volume with
      | some v =>
        if v = 0 then 0
        else
          let avgVolume := (ohlcData.map (·.volume)).sum / (ohlcData.length : ℚ)
          v / avgVolume * volumeWeightFactor * 20
      | none => 0
    let s3 : ℚ := if level.isRecent then 10 else 0
    let distanceRatio := |level.price - currentPrice| / currentPrice
    let s4 : ℚ := if distanceRatio < 5/100 then 15 else if distanceRatio < 10/100 then 10 else 0
    let dataLength : ℚ := (ohlcData.length : ℚ)
    let levelAge := dataLength - level.lastTouch.getD 0
    let ageFactor := max 0 (1 - levelAge / dataLength)
    let s5 : ℚ := ageFactor * 10
    let s6 : ℚ := if level.type = .psychological then 5 else 0
    let s7 : ℚ := if level.type = .volume then 8 else 0
    { level with strength := (jsRound (s1 + s2 + s3 + s4 + s5 + s6 + s7) : ℚ) }

/-- `findLevels`, in source line order: pivots, support/resistance from
clusters, psychological levels, volume levels (both appended to
`keyLevels`), then strength recomputation of the support and resistance
lists.  The sort by `strength` happened inside
`identifySupportLevels`/`identifyResistanceLevels`, before this
recomputation. -/
def findLevels (ohlcData : List Candle) : Option Levels := do
  let pivots := findPivotPoints ohlcData
  let supportLevels := identifySupportLevels pivots.lows ohlcData
  let resistanceLevels := identifyResistanceLevels pivots.highs ohlcData
  let psychLevels ← findPsychologicalLevels ohlcData
  let volumeLevels := findVolumeLevels ohlcData
  let support ← calculateLevelStrength supportLevels ohlcData
  let resistance ← calculateLevelStrength resistanceLevels ohlcData
  pure { support := support, resistance := resistance, pivotPoints := pivots,
         keyLevels := psychLevels ++ volumeLevels }

end SupportResistanceAnalyzer

namespace PatternAnalyzer

/-- Pattern names (source uses string constants). -/
inductive PatternName where
  | ascendingTriangle
  | descendingTriangle
  | symmetricalTriangle
  | headAndShoulders
  | inverseHeadAndShoulders
  | doubleTop
  | doubleBottom
  | bullFlag
  | bearFlag
  | bullishEngulfing
  | bearishEngulfing
  | doji
  | gartley
  | butterfly
deriving DecidableEq

/-- Trade direction (source strings `'long'`/`'short'`/`'neutral'`). -/
inductive TradeDir where
  | long
  | short
  | neutral
deriving DecidableEq

/-- Breakout direction argument (source strings `'up'`/`'down'`). -/
inductive BreakDir where
  | up
  | down
deriving DecidableEq

/-- A pattern match record. -/
structure Pattern where
  name : PatternName
  direction : TradeDir
  confidence : ℚ
  breakoutConfirmed : Bool
  entry : ℚ
  target : ℚ
deriving DecidableEq

/-- A peak/trough record `{index, value}` of `findPeaks`/`findTroughs`. -/
structure Peak where
  index : ℕ
  value : ℚ
deriving DecidableEq

instance : Inhabited Peak := ⟨⟨0, 0⟩⟩

/-- Swing record of `findSwingPoints` (a `Peak` plus a kind tag). -/
structure PASwing where
  index : ℕ
  value : ℚ
  type : SwingKind
deriving DecidableEq

instance : Inhabited PASwing := ⟨⟨0, 0, .high⟩⟩

/-- `findPeaks`: strict local maxima of a numeric series.  The JS loop runs
`for (i = 1; i < data.length - 1)`; all three accesses are in bounds there,
so `getD` is faithful. -/
def findPeaks (data : List ℚ) : List Peak :=
  (List.range' 1 (data.length - 2)).filterMap fun i =>
    if data.getD (i - 1) 0 < data.getD i 0 ∧ data.getD (i + 1) 0 < data.getD i 0 then
      some { index := i, value := data.getD i 0 }
    else none

/-- `findTroughs`: strict local minima. -/
def findTroughs (data : List ℚ) : List Peak :=
  (List.range' 1 (data.length - 2)).filterMap fun i =>
    if data.getD i 0 < data.getD (i - 1) 0 ∧ data.getD i 0 < data.getD (i + 1) 0 then
      some { index := i, value := data.getD i 0 }
    else none

/-- `findSwingPoints`: tagged peaks and troughs merged and sorted by index
(`(a, b) => a.index - b.index`). -/
def findSwingPoints (data : List Candle) : List PASwing :=
  let highs := findPeaks (data.map (·.high))
  let lows := findTroughs (data.map (·.low))
  sortByKeyAsc (fun s => (s.index : ℚ))
    ((highs.map fun h => { index := h.index, value := h.value, type := SwingKind.high }) ++
     (lows.map fun l => { index := l.index, value := l.value, type := SwingKind.low }))

/-- `isHorizontalResistance`: every peak within 2% of the mean. -/
def isHorizontalResistance (peaks : List Peak) : Bool :=
  if peaks.length < 2 then false
  else
    let avgPrice := (peaks.map (·.value)).sum / (peaks.length : ℚ)
    peaks.all fun p => decide (|p.value - avgPrice| / avgPrice < 2/100)

/-- `isRisingSupport`: strictly increasing consecutive troughs. -/
def isRisingSupport (troughs : List Peak) : Bool :=
  if troughs.length < 2 then false
  else (troughs.zip troughs.tail).all fun pr => decide (pr.1.value < pr.2.value)

/-- `isHorizontalSupport`. -/
def isHorizontalSupport (troughs : List Peak) : Bool :=
  if troughs.length < 2 then false
  else
    let avgPrice := (troughs.map (·.value)).sum / (troughs.length : ℚ)
    troughs.all fun t => decide (|t.value - avgPrice| / avgPrice < 2/100)

/-- `isFallingResistance`: strictly decreasing consecutive peaks. -/
def isFallingResistance (peaks : List Peak) : Bool :=
  if peaks.length < 2 then false
  else (peaks.zip peaks.tail).all fun pr => decide (pr.2.value < pr.1.value)

/-- `checkBreakout`: last trailing-5 volume above 1.5 times their average.
The direction argument is unused in the source body. -/
def checkBreakout (data : List Candle) (_direction : BreakDir) : Bool :=
  let recent := data.drop (data.length - 5)
  let volume := recent.map (·.volume)
  let avgVolume := volume.sum / (volume.length : ℚ)
  let lastVolume := volume.getLastD 0
  decide (avgVolume * (15/10) < lastVolume)

/-- `determineBreakoutDirection`: 10-candle close trend. -/
def determineBreakoutDirection (data : List Candle) : TradeDir :=
  let recent := data.drop (data.length - 10)
  let closes : List ℚ := recent.map (·.close)
  if closes.headD 0 < closes.getLastD 0 then TradeDir.long else TradeDir.short

/-- `calculatePatternHeight`: high-low range of the trailing 20 candles. -/
def calculatePatternHeight (data : List Candle) : ℚ :=
  let recent := data.drop (data.length - 20)
  jsMax (recent.map (·.high)) - jsMin (recent.map (·.low))

/-- Triangle kind argument of `calculateTriangleTarget`. -/
inductive TriangleKind where
  | ascending
  | descending
  | symmetrical
deriving DecidableEq

/-- `calculateTriangleTarget`. -/
def calculateTriangleTarget (data : List Candle) (kind : TriangleKind) : ℚ :=
  let currentPrice := (data.getLastD default).close
  let height := calculatePatternHeight data
  match kind with
  | .ascending => currentPrice + height
  | .descending => currentPrice - height
  | .symmetrical => currentPrice + height * (618/1000)

/-- `detectTrianglePatterns`.  Inside the guard there are at least two peaks,
hence at least three candles, so `data[data.length - 1]` is in bounds and
`getLastD` is faithful. -/
def detectTrianglePatterns (data : List Candle) : List Pattern :=
  let highs := findPeaks (data.map (·.high))
  let lows := findTroughs (data.map (·.low))
  if 2 ≤ highs.length ∧ 2 ≤ lows.length then
    let recentHighs := highs.drop (highs.length - 3)
    let recentLows := lows.drop (lows.length - 3)
    let p1 :=
      if isHorizontalResistance recentHighs && isRisingSupport recentLows then
        [{ name := .ascendingTriangle, direction := .long, confidence := 75,
           breakoutConfirmed := checkBreakout data .up,
           entry := (data.getLastD default).close,
           target := calculateTriangleTarget data .ascending }]
      else []
    let p2 :=
      if isHorizontalSupport recentLows && isFallingResistance recentHighs then
        [{ name := .descendingTriangle, direction := .short, confidence := 75,
           breakoutConfirmed := checkBreakout data .down,
           entry := (data.getLastD default).close,
           target := calculateTriangleTarget data .descending }]
      else []
    let p3 :=
      if isFallingResistance recentHighs && isRisingSupport recentLows then
        let breakoutDirection := determineBreakoutDirection data
        -- JS tests `if (breakoutDirection)`; the value is always a nonempty
        -- string, hence always truthy.
        [{ name := .symmetricalTriangle, direction := breakoutDirection, confidence := 70,
           breakoutConfirmed :=
             checkBreakout data (if breakoutDirection = .long then .up else .down),
           entry := (data.getLastD default).close,
           target := calculateTriangleTarget data .symmetrical }]
      else []
    p1 ++ p2 ++ p3
  else []

/-- `isHeadAndShouldersPattern`; `bearish = true` models the `'bearish'`
string argument. -/
def isHeadAndShouldersPattern (points : List Peak) (bearish : Bool) : Bool :=
  if points.length ≠ 3 then false
  else
    let left := points.getD 0 default
    let head := points.getD 1 default
    let right := points.getD 2 default
    if bearish then
      decide (left.value < head.value) && decide (right.value < head.value) &&
      decide (|left.value - right.value| / left.value < 5/100)
    else
      decide (head.value < left.value) && decide (head.value < right.value) &&
      decide (|left.value - right.value| / left.value < 5/100)

/-- `checkNecklineBreak`: last close beyond the min/max of the previous nine
closes of the trailing-10 window. -/
def checkNecklineBreak (data : List Candle) (direction : BreakDir) : Bool :=
  let recent := data.drop (data.length - 10)
  let closes := recent.map (·.close)
  match direction with
  | .down => decide (closes.getLastD 0 < jsMin closes.dropLast)
  | .up => decide (jsMax closes.dropLast < closes.getLastD 0)

/-- `calculateHSTarget`. -/
def calculateHSTarget (data : List Candle) (points : List Peak) : ℚ :=
  let currentPrice := (data.getLastD default).close
  let height :=
    |(points.getD 1 default).value - min (points.getD 0 default).value (points.getD 2 default).value|
  if (points.getD 0 default).value < (points.getD 1 default).value then currentPrice - height
  else currentPrice + height

/-- `detectHeadAndShoulders`. -/
def detectHeadAndShoulders (data : List Candle) : List Pattern :=
  let peaks := findPeaks (data.map (·.high))
  if 3 ≤ peaks.length then
    let lastThreePeaks := peaks.drop (peaks.length - 3)
    let p1 :=
      if isHeadAndShouldersPattern lastThreePeaks true then
        [{ name := .headAndShoulders, direction := .short, confidence := 80,
           breakoutConfirmed := checkNecklineBreak data .down,
           entry := (data.getLastD default).close,
           target := calculateHSTarget data lastThreePeaks }]
      else []
    let troughs := findTroughs (data.map (·.low))
    let p2 :=
      if 3 ≤ troughs.length then
        let lastThreeTroughs := troughs.drop (troughs.length - 3)
        if isHeadAndShouldersPattern lastThreeTroughs false then
          [{ name := .inverseHeadAndShoulders, direction := .long, confidence := 80,
             breakoutConfirmed := checkNecklineBreak data .up,
             entry := (data.getLastD default).close,
             target := calculateHSTarget data lastThreeTroughs }]
        else []
      else []
    p1 ++ p2
  else []

/-- `isDoublePattern`: two extrema within 3% of each other. -/
def isDoublePattern (points : List Peak) : Bool :=
  if points.length ≠ 2 then false
  else
    decide (|(points.getD 0 default).value - (points.getD 1 default).value| /
      (points.getD 0 default).value < 3/100)

/-- `checkSupportBreak`; `lows.slice(0, -2)` is `take (length - 2)`. -/
def checkSupportBreak (data : List Candle) : Bool :=
  let recent := data.drop (data.length - 10)
  let lows := recent.map (·.low)
  let support := jsMin (lows.take (lows.length - 2))
  decide ((data.getLastD default).close < support)

/-- `checkResistanceBreak`. -/
def checkResistanceBreak (data : List Candle) : Bool :=
  let recent := data.drop (data.length - 10)
  let highs := recent.map (·.high)
  let resistance := jsMax (highs.take (highs.length - 2))
  decide (resistance < (data.getLastD default).close)

/-- `calculateDoubleTopTarget`. -/
def calculateDoubleTopTarget (data : List Candle) (peaks : List Peak) : ℚ :=
  let currentPrice := (data.getLastD default).close
  let height := (peaks.getD 0 default).value - jsMin ((data.drop (data.length - 20)).map (·.low))
  currentPrice - height

/-- `calculateDoubleBottomTarget`. -/
def calculateDoubleBottomTarget (data : List Candle) (troughs : List Peak) : ℚ :=
  let currentPrice := (data.getLastD default).close
  let height := jsMax ((data.drop (data.length - 20)).map (·.high)) - (troughs.getD 0 default).value
  currentPrice + height

/-- `detectDoubleTopBottom`. -/
def detectDoubleTopBottom (data : List Candle) : List Pattern :=
  let peaks := findPeaks (data.map (·.high))
  let troughs := findTroughs (data.map (·.low))
  let p1 :=
    if 2 ≤ peaks.length then
      let lastTwoPeaks := peaks.drop (peaks.length - 2)
      if isDoublePattern lastTwoPeaks then
        [{ name := .doubleTop, direction := .short, confidence := 75,
           breakoutConfirmed := checkSupportBreak data,
           entry := (data.getLastD default).close,
           target := calculateDoubleTopTarget data lastTwoPeaks }]
      else []
    else []
  let p2 :=
    if 2 ≤ troughs.length then
      let lastTwoTroughs := troughs.drop (troughs.length - 2)
      if isDoublePattern lastTwoTroughs then
        [{ name := .doubleBottom, direction := .long, confidence := 75,
           breakoutConfirmed := checkResistanceBreak data,
           entry := (data.getLastD default).close,
           target := calculateDoubleBottomTarget data lastTwoTroughs }]
      else []
    else []
  p1 ++ p2

/-- `isBullFlag`: strong first-half rise then second-half consolidation.
Inside the length guard both halves are nonempty so the `[0]` and
`[length - 1]` accesses are in bounds. -/
def isBullFlag (data : List Candle) : Bool :=
  if data.length < 10 then false
  else
    let firstHalf := data.take (data.length / 2)
    let secondHalf := data.drop (data.length / 2)
    let firstTrend :=
      ((firstHalf.getLastD default).close - (firstHalf.headD default).close) /
        (firstHalf.headD default).close
    let secondTrend :=
      |((secondHalf.getLastD default).close - (secondHalf.headD default).close) /
        (secondHalf.headD default).close|
    decide (5/100 < firstTrend) && decide (secondTrend < 2/100)

/-- `isBearFlag`. -/
def isBearFlag (data : List Candle) : Bool :=
  if data.length < 10 then false
  else
    let firstHalf := data.take (data.length / 2)
    let secondHalf := data.drop (data.length / 2)
    let firstTrend :=
      ((firstHalf.getLastD default).close - (firstHalf.headD default).close) /
        (firstHalf.headD default).close
    let secondTrend :=
      |((secondHalf.getLastD default).close - (secondHalf.headD default).close) /
        (secondHalf.headD default).close|
    decide (firstTrend < -(5/100)) && decide (secondTrend < 2/100)

/-- `checkFlagBreakout`; the direction argument is unused in the source. -/
def checkFlagBreakout (data : List Candle) (_direction : BreakDir) : Bool :=
  let volume := data.map (·.volume)
  let avgVolume := volume.sum / (volume.length : ℚ)
  decide (avgVolume * (13/10) < volume.getLastD 0)

/-- `calculateFlagTarget`; `bull = true` models the `'bull'` string. -/
def calculateFlagTarget (data : List Candle) (bull : Bool) : ℚ :=
  let currentPrice := (data.getLastD default).close
  let flagHeight := calculatePatternHeight (data.drop (data.length - 10))
  if bull then currentPrice + flagHeight else currentPrice - flagHeight

/-- `detectFlagPatterns`. -/
def detectFlagPatterns (data : List Candle) : List Pattern :=
  let recentData := data.drop (data.length - 20)
  let p1 :=
    if isBullFlag recentData then
      [{ name := .bullFlag, direction := .long, confidence := 70,
         breakoutConfirmed := checkFlagBreakout recentData .up,
         entry := (data.getLastD default).close,
         target := calculateFlagTarget data true }]
    else []
  let p2 :=
    if isBearFlag recentData then
      [{ name := .bearFlag, direction := .short, confidence := 70,
         breakoutConfirmed := checkFlagBreakout recentData .down,
         entry := (data.getLastD default).close,
         target := calculateFlagTarget data false }]
    else []
  p1 ++ p2

/-- `isBullishEngulfing`. -/
def isBullishEngulfing (prev curr : Candle) : Bool :=
  decide (prev.close < prev.openP) && decide (curr.openP < curr.close) &&
  decide (curr.openP < prev.close) && decide (prev.openP < curr.close)

/-- `isBearishEngulfing`. -/
def isBearishEngulfing (prev curr : Candle) : Bool :=
  decide (prev.openP < prev.close) && decide (curr.close < curr.openP) &&
  decide (prev.close < curr.openP) && decide (curr.close < prev.openP)

/-- `isDoji`.  JS computes `bodySize / totalRange < 0.1`; on a zero range the
quotient is `NaN` (zero body) or `±Infinity` (nonzero body) and the `< 0.1`
comparison is false either way, so the explicit `totalRange ≠ 0` conjunct
reproduces the JS behavior; for nonzero range the rational quotient agrees
with the JS quotient. -/
def isDoji (candle : Candle) : Bool :=
  let bodySize := |candle.close - candle.openP|
  let totalRange := candle.high - candle.low
  decide (totalRange ≠ 0) && decide (bodySize / totalRange < 1/10)

/-- `detectCandlestickPatterns`.  On an empty series JS evaluates
`isDoji(undefined)` and faults on the `.close` access, hence the `Option`. -/
def detectCandlestickPatterns (data : List Candle) : Option (List Pattern) := do
  let recent := data.drop (data.length - 5)
  let engulfing :=
    if 2 ≤ recent.length then
      let prev := recent.getD (recent.length - 2) default
      let curr := recent.getD (recent.length - 1) default
      let e1 :=
        if isBullishEngulfing prev curr then
          [{ name := .bullishEngulfing, direction := .long, confidence := 65,
             breakoutConfirmed := true, entry := curr.close,
             target := curr.close * (102/100) }]
        else []
      let e2 :=
        if isBearishEngulfing prev curr then
          [{ name := .bearishEngulfing, direction := .short, confidence := 65,
             breakoutConfirmed := true, entry := curr.close,
             target := curr.close * (98/100) }]
        else []
      e1 ++ e2
    else []
  let lastCandle ← recent.getLast?
  let dojiPart :=
    if isDoji lastCandle then
      [{ name := .doji, direction := .neutral, confidence := 60,
         breakoutConfirmed := false, entry := lastCandle.close,
         target := lastCandle.close }]
    else []
  pure (engulfing ++ dojiPart)

/-- `isGartleyPattern`.  A zero denominator makes the JS ratio `NaN` or
`±Infinity`, failing the closed band test; in `ℚ` the quotient is `0`, which
also fails every band, so the embeddings agree. -/
def isGartleyPattern (swings : List PASwing) : Bool :=
  if swings.length < 5 then false
  else
    let pX := swings.getD 0 default
    let pA := swings.getD 1 default
    let pB := swings.getD 2 default
    let pC := swings.getD 3 default
    let pD := swings.getD 4 default
    let lXA := |pA.value - pX.value|
    let lAB := |pB.value - pA.value|
    let lBC := |pC.value - pB.value|
    let lCD := |pD.value - pC.value|
    let ratio1 := lAB / lXA
    let ratio2 := lBC / lAB
    let ratio3 := lCD / lBC
    decide (58/100 ≤ ratio1) && decide (ratio1 ≤ 68/100) &&
    decide (38/100 ≤ ratio2) && decide (ratio2 ≤ 48/100) &&
    decide (125/100 ≤ ratio3) && decide (ratio3 ≤ 135/100)

/-- `isButterflyPattern`; see `isGartleyPattern` for the zero-denominator
convention. -/
def isButterflyPattern (swings : List PASwing) : Bool :=
  if swings.length < 5 then false
  else
    let pX := swings.getD 0 default
    let pA := swings.getD 1 default
    let pB := swings.getD 2 default
    let pC := swings.getD 3 default
    let pD := swings.getD 4 default
    let lXA := |pA.value - pX.value|
    let lAB := |pB.value - pA.value|
    let lBC := |pC.value - pB.value|
    let lXD := |pD.value - pX.value|
    let ratio1 := lAB / lXA
    let ratio2 := lBC / lAB
    let ratio3 := lXD / lXA
    decide (75/100 ≤ ratio1) && decide (ratio1 ≤ 85/100) &&
    decide (38/100 ≤ ratio2) && decide (ratio2 ≤ 48/100) &&
    decide (125/100 ≤ ratio3) && decide (ratio3 ≤ 135/100)

/-- `getHarmonicDirection` (the `prevSwing` binding of the source is unused). -/
def getHarmonicDirection (swings : List PASwing) : TradeDir :=
  let lastSwing := swings.getLastD default
  if lastSwing.type = .low then .long else .short

/-- `checkHarmonicCompletion`. -/
def checkHarmonicCompletion (swings : List PASwing) : Bool :=
  5 ≤ swings.length

/-- `calculateHarmonicTarget`. -/
def calculateHarmonicTarget (swings : List PASwing) : ℚ :=
  let pX := swings.getD 0 default
  let pA := swings.getD 1 default
  let pD := swings.getD 4 default
  let lXA := |pA.value - pX.value|
  if pD.type = .low then pD.value + lXA * (618/1000) else pD.value - lXA * (618/1000)

/-- `detectHarmonicPatterns`. -/
def detectHarmonicPatterns (data : List Candle) : List Pattern :=
  let swings := findSwingPoints data
  if 5 ≤ swings.length then
    let lastFive := swings.drop (swings.length - 5)
    let p1 :=
      if isGartleyPattern lastFive then
        [{ name := .gartley, direction := getHarmonicDirection lastFive, confidence := 80,
           breakoutConfirmed := checkHarmonicCompletion lastFive,
           entry := (data.getLastD default).close,
           target := calculateHarmonicTarget lastFive }]
      else []
    let p2 :=
      if isButterflyPattern lastFive then
        [{ name := .butterfly, direction := getHarmonicDirection lastFive, confidence := 75,
           breakoutConfirmed := checkHarmonicCompletion lastFive,
           entry := (data.getLastD default).close,
           target := calculateHarmonicTarget lastFive }]
      else []
    p1 ++ p2
  else []

/-- `detectPatterns`: concatenate all recognizers in source order, keep
matches with confidence at least 60. -/
def detectPatterns (ohlcData : List Candle) : Option (List Pattern) := do
  let p1 := detectTrianglePatterns ohlcData
  let p2 := detectHeadAndShoulders ohlcData
  let p3 := detectDoubleTopBottom ohlcData
  let p4 := detectFlagPatterns ohlcData
  let p5 ← detectCandlestickPatterns ohlcData
  let p6 := detectHarmonicPatterns ohlcData
  pure ((p1 ++ p2 ++ p3 ++ p4 ++ p5 ++ p6).filter fun p => decide (60 ≤ p.confidence))

end PatternAnalyzer

namespace SmartMoneyAnalyzer

/-- Constructor field `this.orderBlockMinSize` (never read by any method). -/
def orderBlockMinSize : ℚ := 2/100

/-- Constructor field `this.fvgMinSize` (0.5% minimum gap). -/
def fvgMinSize : ℚ := 5/1000

/-- Constructor field `this.liquidityThreshold` (never read by any method). -/
def liquidityThreshold : ℚ := 15/10

/-- The default `lookback = 5` of the swing extractors. -/
def lookback : ℕ := 5

/-- Swing point record `{index, price, time, volume}`. -/
structure SwingPoint where
  index : ℕ
  price : ℚ
  time : ℚ
  volume : ℚ
deriving DecidableEq

instance : Inhabited SwingPoint := ⟨⟨0, 0, 0, 0⟩⟩

/-- Direction tag (source strings `'bullish'`/`'bearish'`). -/
inductive Dir where
  | bullish
  | bearish
deriving DecidableEq

/-- Trend tag (source strings `'bullish'`/`'bearish'`/`'neutral'`). -/
inductive Trend where
  | bullish
  | bearish
  | neutral
deriving DecidableEq

/-- BOS/CHoCH record `{type, level, confirmed}`. -/
structure StructureBreak where
  type : Dir
  level : ℚ
  confirmed : Bool
deriving DecidableEq

/-- Index set of the swing-extraction loops (see
`SupportResistanceAnalyzer.pivotIndexes`). -/
def swingIndexes (data : List Candle) : List ℕ :=
  List.range' lookback (data.length - 2 * lookback)

/-- `findSwingHighs`: strict window-maximum test
(`current.high === Math.max(...segment.highs)`). -/
def findSwingHighs (data : List Candle) : List SwingPoint :=
  (swingIndexes data).filterMap fun i =>
    let segment := (data.drop (i - lookback)).take (2 * lookback + 1)
    let current := segment.getD lookback default
    if decide (current.high = jsMax (segment.map (·.high))) then
      some { index := i, price := current.high, time := current.time, volume := current.volume }
    else none

/-- `findSwingLows`. -/
def findSwingLows (data : List Candle) : List SwingPoint :=
  (swingIndexes data).filterMap fun i =>
    let segment := (data.drop (i - lookback)).take (2 * lookback + 1)
    let current := segment.getD lookback default
    if decide (current.low = jsMin (segment.map (·.low))) then
      some { index := i, price := current.low, time := current.time, volume := current.volume }
    else none

/-- Count of consecutive strictly rising swing prices — the `higherHighs`/
`higherLows` counters of `analyzeMarketStructure` (its `length ≥ 2` guard is
redundant: with fewer than two swings there are no consecutive pairs). -/
def countUps (swings : List SwingPoint) : ℕ :=
  ((swings.zip swings.tail).filter fun pr => decide (pr.1.price < pr.2.price)).length

/-- Count of non-rising consecutive pairs — the `lowerHighs`/`lowerLows`
counters (the source `else` branch). -/
def countDowns (swings : List SwingPoint) : ℕ :=
  ((swings.zip swings.tail).filter fun pr => !decide (pr.1.price < pr.2.price)).length

/-- `detectBreakOfStructure`.  `data[data.length - 1].close` faults on an
empty series, hence the `Option`; the `recentData = data.slice(-20)` binding
of the source is dead and omitted.  Bullish break is checked first. -/
def detectBreakOfStructure (data : List Candle) (swingHighs swingLows : List SwingPoint) :
    Option (Option StructureBreak) := do
  let lastCandle ← data.getLast?
  let currentPrice := lastCandle.close
  let bull : Option StructureBreak :=
    match swingHighs.getLast? with
    | some recentHigh =>
      if recentHigh.price < currentPrice then
        some { type := .bullish, level := recentHigh.price, confirmed := true }
      else none
    | none => none
  let bear : Option StructureBreak :=
    match swingLows.getLast? with
    | some recentLow =>
      if currentPrice < recentLow.price then
        some { type := .bearish, level := recentLow.price, confirmed := true }
      else none
    | none => none
  pure (match bull with
        | some b => some b
        | none => bear)

/-- `detectChangeOfCharacter`.  The guard returns `null` before the last
candle is dereferenced; past the guard the `slice(-2)` accesses are in
bounds. -/
def detectChangeOfCharacter (data : List Candle) (swingHighs swingLows : List SwingPoint) :
    Option (Option StructureBreak) :=
  if swingHighs.length < 2 ∨ swingLows.length < 2 then pure none
  else do
    let lastCandle ← data.getLast?
    let currentPrice := lastCandle.close
    let lastTwoHighs := swingHighs.drop (swingHighs.length - 2)
    let lastTwoLows := swingLows.drop (swingLows.length - 2)
    let h0 := lastTwoHighs.getD 0 default
    let h1 := lastTwoHighs.getD 1 default
    let l0 := lastTwoLows.getD 0 default
    let l1 := lastTwoLows.getD 1 default
    pure (
      if h1.price < h0.price ∧ h0.price < currentPrice then
        some { type := Dir.bullish, level := h0.price, confirmed := true }
      else if l0.price < l1.price ∧ currentPrice < l0.price then
        some { type := Dir.bearish, level := l0.price, confirmed := true }
      else none)

/-- Market structure record. -/
structure MarketStructure where
  trend : Trend
  higherHighs : ℕ
  higherLows : ℕ
  lowerHighs : ℕ
  lowerLows : ℕ
  breakOfStructure : Option StructureBreak
  changeOfCharacter : Option StructureBreak
deriving DecidableEq

/-- `analyzeMarketStructure`. -/
def analyzeMarketStructure (data : List Candle) : Option MarketStructure := do
  let swingHighs := findSwingHighs data
  let swingLows := findSwingLows data
  let higherHighs := countUps swingHighs
  let lowerHighs := countDowns swingHighs
  let higherLows := countUps swingLows
  let lowerLows := countDowns swingLows
  let trend :=
    if lowerHighs < higherHighs ∧ lowerLows < higherLows then Trend.bullish
    else if higherHighs < lowerHighs ∧ higherLows < lowerLows then Trend.bearish
    else Trend.neutral
  let bos ← detectBreakOfStructure data swingHighs swingLows
  let choch ← detectChangeOfCharacter data swingHighs swingLows
  pure { trend := trend, higherHighs := higherHighs, higherLows := higherLows,
         lowerHighs := lowerHighs, lowerLows := lowerLows,
         breakOfStructure := bos, changeOfCharacter := choch }

/-- An order block record. -/
structure OrderBlock where
  type : Dir
  high : ℚ
  low : ℚ
  index : ℕ
  time : ℚ
  volume : ℚ
  strength : ℚ
  tested : Bool
deriving DecidableEq

/-- `isBullishOrderBlock` (the `prev` argument is unused in the source
body).  With a zero candle range the first conjunct forces a positive body,
so JS computes `bodyRatio = +Infinity` and the `> 0.6` test passes; the
explicit zero-range disjunct reproduces that. -/
def isBullishOrderBlock (_prev current next : Candle) (avgVolume : ℚ) : Bool :=
  let bodySize := current.close - current.openP
  let candleRange := current.high - current.low
  decide (current.openP < current.close) &&
  (decide (candleRange = 0) || decide (3/5 < bodySize / candleRange)) &&
  decide (avgVolume * (12/10) < current.volume) &&
  decide (current.close < next.close)

/-- `isBearishOrderBlock`; see `isBullishOrderBlock`. -/
def isBearishOrderBlock (_prev current next : Candle) (avgVolume : ℚ) : Bool :=
  let bodySize := current.openP - current.close
  let candleRange := current.high - current.low
  decide (current.close < current.openP) &&
  (decide (candleRange = 0) || decide (3/5 < bodySize / candleRange)) &&
  decide (avgVolume * (12/10) < current.volume) &&
  decide (next.close < current.close)

/-- `calculateOrderBlockStrength`.  On a zero-range candle JS produces a
`NaN`/`Infinity` strength where this model produces a finite one (`x/0 = 0`
in `ℚ`); no order block with a zero range and positive body is produced by
well-formed OHLC data, and no theorem below observes the strength of such a
block. -/
def calculateOrderBlockStrength (candle : Candle) (avgVolume : ℚ) : ℚ :=
  let volumeRatio := candle.volume / avgVolume
  let bodySize := |candle.close - candle.openP|
  let candleRange := candle.high - candle.low
  let bodyRatio := bodySize / candleRange
  (jsRound (volumeRatio * 30 + bodyRatio * 20) : ℚ)

/-- The per-candle test of `markTestedOrderBlocks`: for a bullish block the
candle's low must lie inside `[low, high]`; for a bearish block the candle's
high must. -/
def orderBlockTouched (ob : OrderBlock) (candle : Candle) : Bool :=
  match ob.type with
  | .bullish => decide (candle.low ≤ ob.high) && decide (ob.low ≤ candle.low)
  | .bearish => decide (ob.low ≤ candle.high) && decide (candle.high ≤ ob.high)

/-- `markTestedOrderBlocks`: the scan from `ob.index + 1` with `break` on the
first hit is `List.any` over the dropped prefix. -/
def markTestedOrderBlocks (orderBlocks : List OrderBlock) (data : List Candle) :
    List OrderBlock :=
  orderBlocks.map fun ob =>
    { ob with tested := (data.drop (ob.index + 1)).any fun candle => orderBlockTouched ob candle }

/-- `findOrderBlocks`: loop over `i = 1 .. data.length - 2`, emitting a
bullish and/or bearish block per candle, then mark tested blocks.  All three
accesses are in bounds on the loop range. -/
def findOrderBlocks (data : List Candle) : List OrderBlock :=
  let volumes : List ℚ := data.map (·.volume)
  let avgVolume := volumes.sum / (data.length : ℚ)
  let raw := (List.range' 1 (data.length - 2)).flatMap fun i =>
    let prev := data.getD (i - 1) default
    let current := data.getD i default
    let next := data.getD (i + 1) default
    (if isBullishOrderBlock prev current next avgVolume then
      [{ type := Dir.bullish, high := current.high, low := current.low, index := i,
         time := current.time, volume := current.volume,
         strength := calculateOrderBlockStrength current avgVolume, tested := false }]
     else []) ++
    (if isBearishOrderBlock prev current next avgVolume then
      [{ type := Dir.bearish, high := current.high, low := current.low, index := i,
         time := current.time, volume := current.volume,
         strength := calculateOrderBlockStrength current avgVolume, tested := false }]
     else [])
  markTestedOrderBlocks raw data

/-- A fair value gap record. -/
structure FVG where
  type : Dir
  high : ℚ
  low : ℚ
  index : ℕ
  time : ℚ
  size : ℚ
  filled : Bool
deriving DecidableEq

/-- The per-candle test of `markFilledFVGs` (same shape as
`orderBlockTouched`). -/
def fvgTouched (fvg : FVG) (candle : Candle) : Bool :=
  match fvg.type with
  | .bullish => decide (candle.low ≤ fvg.high) && decide (fvg.low ≤ candle.low)
  | .bearish => decide (fvg.low ≤ candle.high) && decide (candle.high ≤ fvg.high)

/-- `markFilledFVGs`. -/
def markFilledFVGs (fvgs : List FVG) (data : List Candle) : List FVG :=
  fvgs.map fun fvg =>
    { fvg with filled := (data.drop (fvg.index + 1)).any fun candle => fvgTouched fvg candle }

/-- `findFairValueGaps`.  The gap-size divisions have positive denominators
for positive prices; on degenerate nonpositive prices JS would produce
`NaN`/`±Infinity` and the `>=` test would fail, as does the `ℚ` comparison
against the `x/0 = 0` quotient when the denominator is zero. -/
def findFairValueGaps (data : List Candle) : List FVG :=
  let raw := (List.range' 1 (data.length - 2)).flatMap fun i =>
    let prev := data.getD (i - 1) default
    let current := data.getD i default
    let next := data.getD (i + 1) default
    (if prev.high < next.low ∧ fvgMinSize ≤ (next.low - prev.high) / prev.high then
      [{ type := Dir.bullish, high := next.low, low := prev.high, index := i,
         time := current.time, size := (next.low - prev.high) / prev.high,
         filled := false }]
     else []) ++
    (if next.high < prev.low ∧ fvgMinSize ≤ (prev.low - next.high) / next.high then
      [{ type := Dir.bearish, high := prev.low, low := next.high, index := i,
         time := current.time, size := (prev.low - next.high) / next.high,
         filled := false }]
     else [])
  markFilledFVGs raw data

/-- Liquidity side tag (source strings `'sell_side'`/`'buy_side'`). -/
inductive LiquiditySide where
  | sellSide
  | buySide
deriving DecidableEq

/-- A liquidity zone record. -/
structure LiquidityZone where
  type : LiquiditySide
  level : ℚ
  count : ℕ
  strength : ℚ
  swept : Bool
deriving DecidableEq

/-- Inner loop of `findEqualLevels`: join the first group whose mean price is
within the default 0.5% tolerance. -/
def addToFirstGroup (swing : SwingPoint) :
    List (List SwingPoint) → Option (List (List SwingPoint))
  | [] => none
  | g :: gs =>
    let prices : List ℚ := g.map (·.price)
    let avgPrice := prices.sum / (g.length : ℚ)
    if |swing.price - avgPrice| / avgPrice ≤ 5/1000 then some ((g ++ [swing]) :: gs)
    else (addToFirstGroup swing gs).map (g :: ·)

/-- One step of the swing loop of `findEqualLevels`. -/
def groupStep (groups : List (List SwingPoint)) (swing : SwingPoint) :
    List (List SwingPoint) :=
  match addToFirstGroup swing groups with
  | some gs => gs
  | none => groups ++ [[swing]]

/-- `findEqualLevels`: greedy grouping, keeping groups of at least two. -/
def findEqualLevels (swings : List SwingPoint) : List (List SwingPoint) :=
  (swings.foldl groupStep []).filter fun group => 2 ≤ group.length

/-- `markSweptLiquidity`.  `data[data.length - 1].close` faults on an empty
series, hence the `Option`. -/
def markSweptLiquidity (liquidityZones : List LiquidityZone) (data : List Candle) :
    Option (List LiquidityZone) := do
  let lastCandle ← data.getLast?
  let currentPrice := lastCandle.close
  pure <| liquidityZones.map fun zone =>
    let swept :=
      match zone.type with
      | .sellSide => decide (zone.level < currentPrice)
      | .buySide => decide (currentPrice < zone.level)
    { zone with swept := swept }

/-- `findLiquidityZones` (its `avgVolume` binding is dead and omitted).  The
`group.length >= 2` re-check of the source is kept even though
`findEqualLevels` already filtered; `group[0].price` is in bounds since every
group is nonempty by construction. -/
def findLiquidityZones (data : List Candle) : Option (List LiquidityZone) := do
  let swingHighs := findSwingHighs data
  let swingLows := findSwingLows data
  let equalHighs := findEqualLevels swingHighs
  let zonesHigh := equalHighs.filterMap fun group =>
    if 2 ≤ group.length then
      some { type := LiquiditySide.sellSide, level := (group.headD default).price,
             count := group.length, strength := (group.length : ℚ) * 15, swept := false }
    else none
  let equalLows := findEqualLevels swingLows
  let zonesLow := equalLows.filterMap fun group =>
    if 2 ≤ group.length then
      some { type := LiquiditySide.buySide, level := (group.headD default).price,
             count := group.length, strength := (group.length : ℚ) * 15, swept := false }
    else none
  markSweptLiquidity (zonesHigh ++ zonesLow) data

/-- `determineBias`: weighted bullish/bearish scores; the pair components are
the running `(bullishScore, bearishScore)`. -/
def determineBias (marketStructure : MarketStructure) (orderBlocks : List OrderBlock)
    (fairValueGaps : List FVG) : Trend :=
  let s1 : ℚ × ℚ :=
    match marketStructure.trend with
    | .bullish => (30, 0)
    | .bearish => (0, 30)
    | .neutral => (0, 0)
  let s2 : ℚ × ℚ :=
    match marketStructure.breakOfStructure with
    | some b => if b.type = Dir.bullish then (25, 0) else (0, 25)
    | none => (0, 0)
  let s3 : ℚ × ℚ :=
    match marketStructure.changeOfCharacter with
    | some c => if c.type = Dir.bullish then (20, 0) else (0, 20)
    | none => (0, 0)
  let recentOrderBlocks := orderBlocks.drop (orderBlocks.length - 3)
  let s4 : ℚ × ℚ :=
    (recentOrderBlocks.map fun ob =>
      if ob.type = Dir.bullish ∧ ob.tested = false then ((10 : ℚ), (0 : ℚ))
      else if ob.type = Dir.bearish ∧ ob.tested = false then (0, 10)
      else (0, 0)).foldl (fun a b => (a.1 + b.1, a.2 + b.2)) (0, 0)
  let unfilledFVGs := fairValueGaps.filter fun fvg => !fvg.filled
  let s5 : ℚ × ℚ :=
    (unfilledFVGs.map fun fvg =>
      if fvg.type = Dir.bullish then ((5 : ℚ), (0 : ℚ)) else (0, 5)).foldl
      (fun a b => (a.1 + b.1, a.2 + b.2)) (0, 0)
  let bullishScore := s1.1 + s2.1 + s3.1 + s4.1 + s5.1
  let bearishScore := s1.2 + s2.2 + s3.2 + s4.2 + s5.2
  if bearishScore + 10 < bullishScore then Trend.bullish
  else if bullishScore + 10 < bearishScore then Trend.bearish
  else Trend.neutral

/-- `calculateConfidence`. -/
def calculateConfidence (marketStructure : MarketStructure) (orderBlocks : List OrderBlock)
    (fairValueGaps : List FVG) (liquidityZones : List LiquidityZone) : ℚ :=
  let c1 : ℚ := if marketStructure.trend ≠ Trend.neutral then 20 else 0
  let c2 : ℚ := if marketStructure.breakOfStructure.isSome then 25 else 0
  let c3 : ℚ := if marketStructure.changeOfCharacter.isSome then 20 else 0
  let validOrderBlocks := orderBlocks.filter fun ob => decide (30 < ob.strength)
  let c4 : ℚ := min ((validOrderBlocks.length : ℚ) * 10) 30
  let significantFVGs := fairValueGaps.filter fun fvg => decide (1/100 < fvg.size)
  let c5 : ℚ := min ((significantFVGs.length : ℚ) * 5) 15
  let activeLiquidity := liquidityZones.filter fun lz => !lz.swept
  let c6 : ℚ := min ((activeLiquidity.length : ℚ) * 5) 10
  min (c1 + c2 + c3 + c4 + c5 + c6) 95

/-- Key-level kind tag (source strings `'order_block'`/`'fair_value_gap'`/
`'liquidity'`). -/
inductive KeyLevelKind where
  | orderBlock
  | fairValueGap
  | liquidity
deriving DecidableEq

/-- A smart-money key level. -/
structure SMCKeyLevel where
  price : ℚ
  type : KeyLevelKind
  direction : Dir
  strength : ℚ
deriving DecidableEq

/-- `identifyKeyLevels`. -/
def identifyKeyLevels (orderBlocks : List OrderBlock) (fairValueGaps : List FVG)
    (liquidityZones : List LiquidityZone) : List SMCKeyLevel :=
  let untestedOBs := orderBlocks.filter fun ob => !ob.tested && decide (30 < ob.strength)
  let k1 := untestedOBs.map fun ob =>
    { price := if ob.type = Dir.bullish then ob.low else ob.high,
      type := KeyLevelKind.orderBlock, direction := ob.type,
      strength := ob.strength : SMCKeyLevel }
  let unfilledFVGs := fairValueGaps.filter fun fvg => !fvg.filled
  let k2 := unfilledFVGs.map fun fvg =>
    { price := (fvg.high + fvg.low) / 2, type := KeyLevelKind.fairValueGap,
      direction := fvg.type, strength := fvg.size * 1000 : SMCKeyLevel }
  let unsweptLiquidity := liquidityZones.filter fun lz => !lz.swept
  let k3 := unsweptLiquidity.map fun lz =>
    { price := lz.level, type := KeyLevelKind.liquidity,
      direction := if lz.type = LiquiditySide.buySide then Dir.bullish else Dir.bearish,
      strength := lz.strength : SMCKeyLevel }
  sortByKeyDesc (fun k => k.strength) (k1 ++ k2 ++ k3)

/-- The full smart-money analysis record. -/
structure SMCAnalysis where
  bias : Trend
  confidence : ℚ
  orderBlocks : List OrderBlock
  fairValueGaps : List FVG
  liquidityZones : List LiquidityZone
  marketStructure : MarketStructure
  keyLevels : List SMCKeyLevel
deriving DecidableEq

/-- `analyze`, in source call order. -/
def analyze (ohlcData : List Candle) : Option SMCAnalysis := do
  let marketStructure ← analyzeMarketStructure ohlcData
  let orderBlocks := findOrderBlocks ohlcData
  let fairValueGaps := findFairValueGaps ohlcData
  let liquidityZones ← findLiquidityZones ohlcData
  let bias := determineBias marketStructure orderBlocks fairValueGaps
  let confidence := calculateConfidence marketStructure orderBlocks fairValueGaps liquidityZones
  let keyLevels := identifyKeyLevels orderBlocks fairValueGaps liquidityZones
  pure { bias := bias, confidence := confidence, orderBlocks := orderBlocks,
         fairValueGaps := fairValueGaps, liquidityZones := liquidityZones,
         marketStructure := marketStructure, keyLevels := keyLevels }

end SmartMoneyAnalyzer

namespace ElliottWaveAnalyzer

/-- Swing record of `identifySwingPoints` `{index, price, type, time}`.  (The
constructor fields `this.waveTypes` and `this.fibonacciRatios` of the source
are never read by any method and are not modeled.) -/
structure Swing where
  index : ℕ
  price : ℚ
  type : SwingKind
  time : ℚ
deriving DecidableEq

instance : Inhabited Swing := ⟨⟨0, 0, .high, 0⟩⟩

/-- Direction tag (source strings `'bullish'`/`'bearish'`). -/
inductive Dir where
  | bullish
  | bearish
deriving DecidableEq

/-- The fixed `lookback = 5` of `identifySwingPoints`. -/
def lookback : ℕ := 5

/-- Index set of the swing loop (see `SupportResistanceAnalyzer.pivotIndexes`). -/
def swingIndexes (data : List Candle) : List ℕ :=
  List.range' lookback (data.length - 2 * lookback)

/-- The `minSwingSize = 0.02` of `filterSignificantSwings`. -/
def minSwingSize : ℚ := 2/100

/-- One iteration of the `filterSignificantSwings` loop: push an alternating
significant swing; on a same-kind successor, replace the kept swing when more
extreme; otherwise drop the swing. -/
def filterStep (filtered : List Swing) (current : Swing) : List Swing :=
  match filtered.getLast? with
  | none => [current]
  | some last =>
    if minSwingSize ≤ |current.price - last.price| / last.price ∧ current.type ≠ last.type then
      filtered ++ [current]
    else if current.type = last.type then
      if (current.type = SwingKind.high ∧ last.price < current.price) ∨
         (current.type = SwingKind.low ∧ current.price < last.price) then
        filtered.dropLast ++ [current]
      else filtered
    else filtered

/-- `filterSignificantSwings`. -/
def filterSignificantSwings (swings : List Swing) : List Swing :=
  swings.foldl filterStep []

/-- `identifySwingPoints`: strict window extrema (high pushed before low at
the same index), then significance filtering. -/
def identifySwingPoints (data : List Candle) : List Swing :=
  let swings := (swingIndexes data).flatMap fun i =>
    let segment := (data.drop (i - lookback)).take (2 * lookback + 1)
    let current := segment.getD lookback default
    (if decide (current.high = jsMax (segment.map (·.high))) then
      [{ index := i, price := current.high, type := SwingKind.high, time := current.time }]
     else []) ++
    (if decide (current.low = jsMin (segment.map (·.low))) then
      [{ index := i, price := current.low, type := SwingKind.low, time := current.time }]
     else [])
  filterSignificantSwings swings

/-- Rule descriptions pushed by `validateElliottRules` (source strings). -/
inductive RuleDetail where
  | wave2Valid
  | wave3NotShortest
  | wave4NoOverlap
  | wave3ProperExtension
deriving DecidableEq

/-- Return value of `validateElliottRules`. -/
structure RuleScore where
  score : ℚ
  details : List RuleDetail
deriving DecidableEq

/-- `validateElliottRules`.  The wave lengths are the source's signed
differences (`w5.price - w4.price` runs against the trend direction, so the
bullish `wave5Length` is typically negative); the `+20` rule requires wave 3
to be at least as long as both wave 1 and wave 5.  The extension
`ratio = wave3Length / wave1Length` with a zero denominator is `NaN` or
`±Infinity` in JS and fails the closed band test, as does the `ℚ` quotient
`x/0 = 0`. -/
def validateElliottRules (waves : List Swing) (direction : Dir) : RuleScore :=
  let w1 := waves.getD 0 default
  let w2 := waves.getD 1 default
  let w3 := waves.getD 2 default
  let w4 := waves.getD 3 default
  let w5 := waves.getD 4 default
  match direction with
  | .bullish =>
    let wave1Length := w2.price - w1.price
    let wave3Length := w4.price - w3.price
    let wave5Length := w5.price - w4.price
    let r1 : RuleScore := if w1.price < w2.price then ⟨15, [.wave2Valid]⟩ else ⟨0, []⟩
    let r2 : RuleScore :=
      if wave1Length ≤ wave3Length ∧ wave5Length ≤ wave3Length then ⟨20, [.wave3NotShortest]⟩
      else ⟨0, []⟩
    let r3 : RuleScore := if w2.price < w4.price then ⟨15, [.wave4NoOverlap]⟩ else ⟨0, []⟩
    let ratio := wave3Length / wave1Length
    let r4 : RuleScore :=
      if 15/10 ≤ ratio ∧ ratio ≤ 17/10 then ⟨10, [.wave3ProperExtension]⟩ else ⟨0, []⟩
    ⟨r1.score + r2.score + r3.score + r4.score,
     r1.details ++ r2.details ++ r3.details ++ r4.details⟩
  | .bearish =>
    let wave1Length := w1.price - w2.price
    let wave3Length := w3.price - w4.price
    let wave5Length := w4.price - w5.price
    let r1 : RuleScore := if w2.price < w1.price then ⟨15, [.wave2Valid]⟩ else ⟨0, []⟩
    let r2 : RuleScore :=
      if wave1Length ≤ wave3Length ∧ wave5Length ≤ wave3Length then ⟨20, [.wave3NotShortest]⟩
      else ⟨0, []⟩
    let r3 : RuleScore := if w4.price < w2.price then ⟨15, [.wave4NoOverlap]⟩ else ⟨0, []⟩
    let ratio := wave3Length / wave1Length
    let r4 : RuleScore :=
      if 15/10 ≤ ratio ∧ ratio ≤ 17/10 then ⟨10, [.wave3ProperExtension]⟩ else ⟨0, []⟩
    ⟨r1.score + r2.score + r3.score + r4.score,
     r1.details ++ r2.details ++ r3.details ++ r4.details⟩

/-- Return value of `calculateWaveRatios`. -/
structure WaveRatios where
  wave2Retracement : ℚ
  wave3Extension : ℚ
  wave4Retracement : ℚ
  wave5Ratio : ℚ
deriving DecidableEq

/-- `calculateWaveRatios`.  The source computes `wave5Length` with the same
formula as `wave4Length` (both `|w5.price - w4.price|`); that repetition is
kept.  Zero denominators: JS `NaN`/`±Infinity` versus `ℚ` zero — both fail
every `isNearFibRatio` band below, whose targets all exceed the 0.1
tolerance. -/
def calculateWaveRatios (waves : List Swing) : WaveRatios :=
  let w1 := waves.getD 0 default
  let w2 := waves.getD 1 default
  let w3 := waves.getD 2 default
  let w4 := waves.getD 3 default
  let w5 := waves.getD 4 default
  let wave1Length := |w2.price - w1.price|
  let wave2Length := |w3.price - w2.price|
  let wave3Length := |w4.price - w3.price|
  let wave4Length := |w5.price - w4.price|
  let wave5Length := |w5.price - w4.price|
  { wave2Retracement := wave2Length / wave1Length
    wave3Extension := wave3Length / wave1Length
    wave4Retracement := wave4Length / wave3Length
    wave5Ratio := wave5Length / wave1Length }

/-- `isNearFibRatio` with its default `tolerance = 0.1`. -/
def isNearFibRatio (value : ℚ) (targets : List ℚ) : Bool :=
  targets.any fun target => decide (|value - target| ≤ 1/10)

/-- Fibonacci observations pushed by `checkFibonacciRelationships` (the
source strings interpolate the measured percentage; only the tag is
modeled). -/
inductive FibDetail where
  | wave2Near
  | wave3Near
  | wave4Near
  | wave5Near
deriving DecidableEq

/-- Return value of `checkFibonacciRelationships`. -/
structure FibScore where
  score : ℚ
  details : List FibDetail
deriving DecidableEq

/-- `checkFibonacciRelationships`. -/
def checkFibonacciRelationships (waves : List Swing) : FibScore :=
  let ratios := calculateWaveRatios waves
  let f1 : FibScore :=
    if isNearFibRatio ratios.wave2Retracement [5/10, 618/1000, 786/1000] then ⟨10, [.wave2Near]⟩
    else ⟨0, []⟩
  let f2 : FibScore :=
    if isNearFibRatio ratios.wave3Extension [1618/1000, 2618/1000] then ⟨15, [.wave3Near]⟩
    else ⟨0, []⟩
  let f3 : FibScore :=
    if isNearFibRatio ratios.wave4Retracement [236/1000, 382/1000, 5/10] then ⟨10, [.wave4Near]⟩
    else ⟨0, []⟩
  let f4 : FibScore :=
    if isNearFibRatio ratios.wave5Ratio [1, 618/1000] then ⟨10, [.wave5Near]⟩
    else ⟨0, []⟩
  ⟨f1.score + f2.score + f3.score + f4.score,
   f1.details ++ f2.details ++ f3.details ++ f4.details⟩

/-- Return value of `analyzeImpulseWave`.  The JS early returns are the bare
object `{isValid: false}`; the remaining fields are dummies in that case. -/
structure ImpulseCheck where
  isValid : Bool
  direction : Dir
  confidence : ℚ
  rules : List RuleDetail
  fibonacci : List FibDetail
deriving DecidableEq

/-- `analyzeImpulseWave`. -/
def analyzeImpulseWave (waves : List Swing) : ImpulseCheck :=
  if waves.length ≠ 5 then
    { isValid := false, direction := .bullish, confidence := 0, rules := [], fibonacci := [] }
  else
    let w1 := waves.getD 0 default
    let w2 := waves.getD 1 default
    let w3 := waves.getD 2 default
    let w4 := waves.getD 3 default
    let w5 := waves.getD 4 default
    let alternationCorrect :=
      (w1.type ≠ w2.type ∧ w2.type ≠ w3.type ∧ w3.type ≠ w4.type ∧ w4.type ≠ w5.type) ∧
      (w1.type = w3.type ∧ w3.type = w5.type) ∧ (w2.type = w4.type)
    if ¬ alternationCorrect then
      { isValid := false, direction := .bullish, confidence := 0, rules := [], fibonacci := [] }
    else
      let direction := if w1.type = SwingKind.low then Dir.bullish else Dir.bearish
      let rules := validateElliottRules waves direction
      let fib := checkFibonacciRelationships waves
      let confidence : ℚ := 20 + rules.score + fib.score
      { isValid := decide (60 ≤ confidence), direction := direction,
        confidence := min confidence 95, rules := rules.details, fibonacci := fib.details }

/-- Return value of `analyzeCorrectiveWave` (dummy fields on early return,
as for `analyzeImpulseWave`). -/
structure CorrectiveCheck where
  isValid : Bool
  direction : Dir
  confidence : ℚ
deriving DecidableEq

/-- `analyzeCorrectiveWave`.  Note `bRetracement = |wB - wA| / |wB - wA|`,
which is `1` whenever wave A has nonzero length (and `NaN` in JS, `0` here,
otherwise — both failing the band test). -/
def analyzeCorrectiveWave (waves : List Swing) : CorrectiveCheck :=
  if waves.length ≠ 3 then { isValid := false, direction := .bullish, confidence := 0 }
  else
    let wA := waves.getD 0 default
    let wB := waves.getD 1 default
    let wC := waves.getD 2 default
    let alternationCorrect := wA.type ≠ wB.type ∧ wB.type ≠ wC.type ∧ wA.type = wC.type
    if ¬ alternationCorrect then { isValid := false, direction := .bullish, confidence := 0 }
    else
      let direction := if wA.type = SwingKind.high then Dir.bearish else Dir.bullish
      let waveALength := |wB.price - wA.price|
      let waveCLength := |wC.price - wB.price|
      let cToARatio := waveCLength / waveALength
      let conf1 : ℚ := if isNearFibRatio cToARatio [1, 1618/1000] then 20 else 0
      let bRetracement := |wB.price - wA.price| / waveALength
      let conf2 : ℚ := if isNearFibRatio bRetracement [5/10, 618/1000, 786/1000] then 15 else 0
      let confidence : ℚ := 20 + conf1 + conf2
      { isValid := decide (40 ≤ confidence), direction := direction,
        confidence := min confidence 90 }

/-- Structure kind tag (source strings `'impulse'`/`'corrective'`). -/
inductive StructureKind where
  | impulse
  | corrective
deriving DecidableEq

/-- A labeled wave structure. -/
structure WaveStructure where
  type : StructureKind
  waves : List Swing
  direction : Dir
  confidence : ℚ
  startIndex : ℕ
  endIndex : ℕ
deriving DecidableEq

/-- `identifyWaveStructure`: every contiguous 5-swing and 3-swing window, the
single highest-confidence valid candidate (the source's
`structures.sort(...)[0]` with a `length > 0` guard is `head?` of the sorted
list). -/
def identifyWaveStructure (swings : List Swing) : Option WaveStructure :=
  if swings.length < 5 then none
  else
    let impulses := (List.range (swings.length - 4)).filterMap fun i =>
      let fiveWaves := (swings.drop i).take 5
      let impulseStructure := analyzeImpulseWave fiveWaves
      if impulseStructure.isValid then
        some { type := StructureKind.impulse, waves := fiveWaves,
               direction := impulseStructure.direction,
               confidence := impulseStructure.confidence,
               startIndex := i, endIndex := i + 4 }
      else none
    let correctives := (List.range (swings.length - 2)).filterMap fun i =>
      let threeWaves := (swings.drop i).take 3
      let correctiveStructure := analyzeCorrectiveWave threeWaves
      if correctiveStructure.isValid then
        some { type := StructureKind.corrective, waves := threeWaves,
               direction := correctiveStructure.direction,
               confidence := correctiveStructure.confidence,
               startIndex := i, endIndex := i + 2 }
      else none
    (sortByKeyDesc (fun s => s.confidence) (impulses ++ correctives)).head?

/-- Current-wave labels (source strings; `abcIndexed i` models
``${['A','B','C'][i]} (corrective)``). -/
inductive WaveLabel where
  | aCorrective
  | fiveCompleting
  | impulseCount (n : ℕ)
  | abcIndexed (i : ℕ)
  | cCompleting
deriving DecidableEq

/-- `determineCurrentWave`.  A `null` structure returns `null` before any
candle access; otherwise `ohlcData[ohlcData.length - 1].close` faults on an
empty series, hence the `Option`.  `structure.waves` is nonempty (5 or 3
swings) for every structure built above, so `getLastD` is faithful. -/
def determineCurrentWave (struc : Option WaveStructure) (ohlcData : List Candle) :
    Option (Option WaveLabel) :=
  match struc with
  | none => pure none
  | some s => do
    let lastCandle ← ohlcData.getLast?
    let currentPrice := lastCandle.close
    let lastWave := s.waves.getLastD default
    pure (some (
      match s.type with
      | .impulse =>
        let waveCount := s.waves.length
        if waveCount = 5 then
          if s.direction = Dir.bullish ∧ currentPrice < lastWave.price then
            WaveLabel.aCorrective
          else if s.direction = Dir.bearish ∧ lastWave.price < currentPrice then
            WaveLabel.aCorrective
          else WaveLabel.fiveCompleting
        else WaveLabel.impulseCount waveCount
      | .corrective =>
        let waveCount := s.waves.length
        if waveCount ≤ 3 then WaveLabel.abcIndexed (waveCount - 1)
        else WaveLabel.cCompleting))

/-- `calculateWaveConfidence`. -/
def calculateWaveConfidence (struc : Option WaveStructure) : ℚ :=
  match struc with
  | none => 0
  | some s =>
    let confidence := s.confidence
    let confidence :=
      if s.type = StructureKind.impulse ∧ s.waves.length = 5 then confidence + 10
      else if s.type = StructureKind.corrective ∧ s.waves.length = 3 then confidence + 10
      else confidence
    let confidence := if s.waves.length < 3 then confidence - 20 else confidence
    max 0 (min 95 confidence)

/-- Impulse projections (`{}` with no keys when fewer than 3 waves). -/
structure ImpulseProjections where
  wave5_equal : Option ℚ
  wave5_618 : Option ℚ
deriving DecidableEq

/-- Corrective projections. -/
structure CorrectiveProjections where
  waveC_equal : Option ℚ
  waveC_1618 : Option ℚ
deriving DecidableEq

/-- `calculateWaveProjections` result: exactly one side is set. -/
structure WaveProjections where
  impulse : Option ImpulseProjections
  corrective : Option CorrectiveProjections
deriving DecidableEq

/-- `calculateImpulseProjections` (the `currentPrice` argument and the
`wave3Start` binding are unused in the source body; `waves[4]` is in bounds
for the 5-swing impulse structures this is called on). -/
def calculateImpulseProjections (s : WaveStructure) (_currentPrice : ℚ) : ImpulseProjections :=
  if 3 ≤ s.waves.length then
    let wave1Length := |(s.waves.getD 1 default).price - (s.waves.getD 0 default).price|
    let w4price := (s.waves.getD 4 default).price
    let wave5equal :=
      if s.direction = Dir.bullish then w4price + wave1Length else w4price - wave1Length
    let wave1to3Range := |(s.waves.getD 2 default).price - (s.waves.getD 0 default).price|
    let wave5ext :=
      if s.direction = Dir.bullish then w4price + wave1to3Range * (618/1000)
      else w4price - wave1to3Range * (618/1000)
    { wave5_equal := some wave5equal, wave5_618 := some wave5ext }
  else { wave5_equal := none, wave5_618 := none }

/-- `calculateCorrectiveProjections`. -/
def calculateCorrectiveProjections (s : WaveStructure) (_currentPrice : ℚ) :
    CorrectiveProjections :=
  if 2 ≤ s.waves.length then
    let waveALength := |(s.waves.getD 1 default).price - (s.waves.getD 0 default).price|
    let w1price := (s.waves.getD 1 default).price
    let equalProj :=
      if s.direction = Dir.bearish then w1price - waveALength else w1price + waveALength
    let extProj :=
      if s.direction = Dir.bearish then w1price - waveALength * (1618/1000)
      else w1price + waveALength * (1618/1000)
    { waveC_equal := some equalProj, waveC_1618 := some extProj }
  else { waveC_equal := none, waveC_1618 := none }

/-- `calculateWaveProjections`. -/
def calculateWaveProjections (struc : Option WaveStructure) (ohlcData : List Candle) :
    Option (Option WaveProjections) :=
  match struc with
  | none => pure none
  | some s => do
    let lastCandle ← ohlcData.getLast?
    let currentPrice := lastCandle.close
    pure (some (
      if s.type = StructureKind.impulse then
        { impulse := some (calculateImpulseProjections s currentPrice), corrective := none }
      else
        { impulse := none, corrective := some (calculateCorrectiveProjections s currentPrice) }))

/-- Return value of `analyzeWave`.  The early-return object carries no
`projections` key and the main branch's value may be `null`; both are
`none`. -/
structure WaveResult where
  isValid : Bool
  currentWave : Option WaveLabel
  confidence : ℚ
  waveStructure : Option WaveStructure
  projections : Option WaveProjections
deriving DecidableEq

/-- `analyzeWave`. -/
def analyzeWave (ohlcData : List Candle) : Option WaveResult := do
  let swingPoints := identifySwingPoints ohlcData
  if swingPoints.length < 5 then
    pure { isValid := false, currentWave := none, confidence := 0,
           waveStructure := none, projections := none }
  else
    let waveStructure := identifyWaveStructure swingPoints
    let currentWave ← determineCurrentWave waveStructure ohlcData
    let confidence := calculateWaveConfidence waveStructure
    let projections ← calculateWaveProjections waveStructure ohlcData
    pure { isValid := decide (60 ≤ confidence), currentWave := currentWave,
           confidence := confidence, waveStructure := waveStructure,
           projections := projections }

end ElliottWaveAnalyzer

/-! Spec-side definitions (named after the specification's wording, for
refinement comparisons), boolean checkers, and the concrete series used by
witnesses and counterexamples. -/

/-- Spec side (C1): the input of the re-clustering pass — one pivot per
cluster, priced at the cluster's mean. -/
def reclusterInput (clusters : List SupportResistanceAnalyzer.Cluster) :
    List SupportResistanceAnalyzer.PivotPoint :=
  clusters.map fun c => { index := 0, price := c.avgPrice, time := 0, volume := 0 }

/-- Spec side (C7): some candle after the block's index has a price range
`[low, high]` that intersects the block's `[low, high]` band. -/
def specRangeRevisits (data : List Candle) (ob : SmartMoneyAnalyzer.OrderBlock) : Bool :=
  (data.drop (ob.index + 1)).any fun candle =>
    decide (candle.low ≤ ob.high) && decide (ob.low ≤ candle.high)

/-- Spec side (C5): wave 3's length is not the shortest among the lengths of
waves 1, 3 and 5 — the lengths being the source's signed differences for the
given direction. -/
def wave3NotShortestSpec (waves : List ElliottWaveAnalyzer.Swing)
    (direction : ElliottWaveAnalyzer.Dir) : Bool :=
  let w1 := waves.getD 0 default
  let w2 := waves.getD 1 default
  let w3 := waves.getD 2 default
  let w4 := waves.getD 3 default
  let w5 := waves.getD 4 default
  match direction with
  | .bullish =>
    let wave1Length := w2.price - w1.price
    let wave3Length := w4.price - w3.price
    let wave5Length := w5.price - w4.price
    !(decide (wave3Length < wave1Length) && decide (wave3Length < wave5Length))
  | .bearish =>
    let wave1Length := w1.price - w2.price
    let wave3Length := w3.price - w4.price
    let wave5Length := w4.price - w5.price
    !(decide (wave3Length < wave1Length) && decide (wave3Length < wave5Length))

/-- Spec side (C8): the claimed step selection, keyed directly on the latest
close. -/
def specStepFromPrice (price : ℚ) : ℚ :=
  if price < 1 then 1/100
  else if price < 10 then 1/10
  else if price < 100 then 1
  else if price < 1000 then 10
  else 100

/-- Checker (C4): descending order of a rational key. -/
def isSortedDescBy (key : α → ℚ) : List α → Bool
  | [] => true
  | [_] => true
  | a :: b :: rest => decide (key b ≤ key a) && isSortedDescBy key (b :: rest)

/-- C1 witness data: two pivots far outside tolerance. -/
def separatedPivots : List SupportResistanceAnalyzer.PivotPoint :=
  [⟨0, 100, 0, 0⟩, ⟨1, 200, 1, 0⟩]

/-- C1 counterexample data: the first pivot founds a cluster at 10000, the
second (0.55% away) founds a second cluster, the third (0.4% away) joins the
first and drags its mean to 10020 — within 0.5% of 10055. -/
def mergingPivots : List SupportResistanceAnalyzer.PivotPoint :=
  [⟨0, 10000, 0, 0⟩, ⟨1, 10055, 1, 0⟩, ⟨2, 10040, 2, 0⟩]

/-- C2 witness data: ten candles, one fewer than `2*lookback + 1`. -/
def shortSeries : List Candle := List.replicate 10 default

/-- C3 counterexample data: two candles trading near 100 and near 200.  Only
2 of the 50 volume-profile bins receive volume, so the top-10% threshold
(the 6th-largest bin volume) is 0 and every bin becomes a volume level —
including mid-range bins no candle ever touched. -/
def twoCandleSeries : List Candle :=
  [⟨0, 100, 101, 100, 201/2, 10⟩, ⟨1, 200, 200, 199, 399/2, 10⟩]

/-- C4 counterexample data: 40 candles, flat at 130 with support dips to 100
at indexes 5 and 16 (2 touches, old, far from the final close 121) and dips
to 120 at indexes 22, 28 and 34 (3 touches, recent, within 5% of the final
close).  The first cluster is created first, so it precedes the second in
the returned list although its recomputed strength (40) is below the
second's (85). -/
def fortyCandleSeries : List Candle := (List.range 40).map fun i =>
  if i == 5 || i == 16 then ⟨(i : ℚ), 130, 130, 100, 130, 10⟩
  else if i == 22 || i == 28 || i == 34 then ⟨(i : ℚ), 130, 130, 120, 130, 10⟩
  else if i == 39 then ⟨(i : ℚ), 130, 130, 121, 121, 10⟩
  else ⟨(i : ℚ), 130, 130, 130, 130, 10⟩

/-- C5 counterexample data: a valid alternating bullish 5-swing window with
signed wave lengths 20 (wave 1), 15 (wave 3) and -10 (wave 5): wave 3 is not
the shortest (under signed or absolute reading), yet not the longest. -/
def wavesMidLength : List ElliottWaveAnalyzer.Swing :=
  [⟨0, 100, .low, 0⟩, ⟨1, 120, .high, 1⟩, ⟨2, 110, .low, 2⟩,
   ⟨3, 125, .high, 3⟩, ⟨4, 115, .low, 4⟩]

/-- C6 witness data: one zero-range candle. -/
def singleFlatCandle : List Candle := [⟨0, 100, 100, 100, 100, 0⟩]

/-- C7 counterexample data: candle 1 is a bullish order block with band
`[99.5, 111]`; candle 2 closes higher (confirming the block) and its range
`[99, 120]` straddles the whole band, but its low (99) is below the band, so
the source never marks the block tested. -/
def threeCandleSeries : List Candle :=
  [⟨0, 100, 101, 99, 100, 10⟩,
   ⟨1, 100, 111, 199/2, 110, 50⟩,
   ⟨2, 105, 120, 99, 115, 10⟩]

/-! Helper lemmas. -/

lemma mem_insertStable {lt : α → α → Bool} {x y : α} {l : List α} :
    y ∈ insertStable lt x l ↔ y = x ∨ y ∈ l := by
  induction l with
  | nil => simp [insertStable]
  | cons a as ih =>
    simp only [insertStable]
    split_ifs <;> simp [ih]
    tauto

lemma mem_sortStable {lt : α → α → Bool} {y : α} {l : List α} :
    y ∈ sortStable lt l ↔ y ∈ l := by
  induction l with
  | nil => simp [sortStable]
  | cons a as ih => simp [sortStable, mem_insertStable, ih]

lemma mem_sortByKeyDesc {key : α → ℚ} {y : α} {l : List α} :
    y ∈ sortByKeyDesc key l ↔ y ∈ l := mem_sortStable

/-! Claim C10. -/

lemma filterStep_chain (filtered : List ElliottWaveAnalyzer.Swing)
    (current : ElliottWaveAnalyzer.Swing)
    (h : List.Chain' (fun a b => a.type ≠ b.type) filtered) :
    List.Chain' (fun a b => a.type ≠ b.type)
      (ElliottWaveAnalyzer.filterStep filtered current) := by
  unfold ElliottWaveAnalyzer.filterStep
  cases hl : filtered.getLast? with
  | none => simp
  | some last =>
    have hfl : filtered.dropLast ++ [last] = filtered := List.dropLast_append_getLast? last hl
    dsimp only
    split_ifs with h1 h2 h3
    · rw [List.chain'_append]
      refine ⟨h, List.chain'_singleton _, ?_⟩
      intro x hx y hy
      rw [hl] at hx
      simp at hx hy
      subst hx; subst hy
      exact Ne.symm h1.2
    · rw [← hfl] at h
      rw [List.chain'_append] at h ⊢
      obtain ⟨hd, _, hlast⟩ := h
      refine ⟨hd, List.chain'_singleton _, ?_⟩
      intro x hx y hy
      simp at hy
      subst hy
      have hx' := hlast x hx last (by simp)
      rw [h2]
      exact hx'
    · exact h
    · exact h

lemma foldl_filterStep_chain (swings : List ElliottWaveAnalyzer.Swing)
    (acc : List ElliottWaveAnalyzer.Swing)
    (h : List.Chain' (fun a b => a.type ≠ b.type) acc) :
    List.Chain' (fun a b => a.type ≠ b.type)
      (swings.foldl ElliottWaveAnalyzer.filterStep acc) := by
  induction swings generalizing acc with
  | nil => exact h
  | cons s ss ih => exact ih _ (filterStep_chain acc s h)

/-- Claim C10: for every input swing list, the output of
`filterSignificantSwings` strictly alternates in kind — no two consecutive
kept swings are both highs or both lows. -/
theorem c10_filter_alternates (swings : List ElliottWaveAnalyzer.Swing) :
    List.Chain' (fun a b => a.type ≠ b.type)
      (ElliottWaveAnalyzer.filterSignificantSwings swings) :=
  foldl_filterStep_chain swings [] (by simp)

/-! Claim C2. -/

/-- Claim C2: for every candle series with fewer than `2*lookback + 1 = 11`
candles, the pivot extractor returns empty highs and lows lists and the
swing extractors return empty swing lists. -/
theorem c2_short_series_empty (data : List Candle) (h : data.length < 11) :
    SupportResistanceAnalyzer.findPivotPoints data = ⟨[], []⟩ ∧
    SmartMoneyAnalyzer.findSwingHighs data = [] ∧
    SmartMoneyAnalyzer.findSwingLows data = [] ∧
    ElliottWaveAnalyzer.identifySwingPoints data = [] := by
  have hz : data.length - 2 * 5 = 0 := by omega
  refine ⟨?_, ?_, ?_, ?_⟩
  · simp [SupportResistanceAnalyzer.findPivotPoints, SupportResistanceAnalyzer.pivotIndexes,
      SupportResistanceAnalyzer.lookback, hz]
  · simp [SmartMoneyAnalyzer.findSwingHighs, SmartMoneyAnalyzer.swingIndexes,
      SmartMoneyAnalyzer.lookback, hz]
  · simp [SmartMoneyAnalyzer.findSwingLows, SmartMoneyAnalyzer.swingIndexes,
      SmartMoneyAnalyzer.lookback, hz]
  · simp [ElliottWaveAnalyzer.identifySwingPoints, ElliottWaveAnalyzer.swingIndexes,
      ElliottWaveAnalyzer.lookback, ElliottWaveAnalyzer.filterSignificantSwings, hz]

theorem c2_short_series_empty_witness :
    SupportResistanceAnalyzer.findPivotPoints shortSeries = ⟨[], []⟩ ∧
    SmartMoneyAnalyzer.findSwingHighs shortSeries = [] ∧
    SmartMoneyAnalyzer.findSwingLows shortSeries = [] ∧
    ElliottWaveAnalyzer.identifySwingPoints shortSeries = [] :=
  c2_short_series_empty shortSeries (by decide)

/-! Claim C9. -/

/-- Claim C9: for every candle series whose significant-swing list has fewer
than 5 entries, `analyzeWave` returns `isValid = false`, confidence 0, and
null `currentWave` and `waveStructure` (and no projections). -/
theorem c9_few_swings_invalid (data : List Candle)
    (h : (ElliottWaveAnalyzer.identifySwingPoints data).length < 5) :
    ElliottWaveAnalyzer.analyzeWave data =
      some { isValid := false, currentWave := none, confidence := 0,
             waveStructure := none, projections := none } := by
  simp [ElliottWaveAnalyzer.analyzeWave, h]

theorem c9_few_swings_invalid_witness :
    ElliottWaveAnalyzer.analyzeWave [] =
      some { isValid := false, currentWave := none, confidence := 0,
             waveStructure := none, projections := none } :=
  c9_few_swings_invalid [] (by decide)

/-! Claim C5. -/

/-- Claim C5 (amended): the +20 bonus of `validateElliottRules` is awarded
exactly when wave 3's signed length is at least each of wave 1's and wave
5's signed lengths — i.e. wave 3 is weakly the longest — not merely when it
is not the shortest. -/
theorem c5_wave3_bonus_iff_longest (waves : List ElliottWaveAnalyzer.Swing)
    (direction : ElliottWaveAnalyzer.Dir) :
    (ElliottWaveAnalyzer.RuleDetail.wave3NotShortest ∈
        (ElliottWaveAnalyzer.validateElliottRules waves direction).details) ↔
      (match direction with
       | .bullish =>
         (waves.getD 1 default).price - (waves.getD 0 default).price ≤
             (waves.getD 3 default).price - (waves.getD 2 default).price ∧
           (waves.getD 4 default).price - (waves.getD 3 default).price ≤
             (waves.getD 3 default).price - (waves.getD 2 default).price
       | .bearish =>
         (waves.getD 0 default).price - (waves.getD 1 default).price ≤
             (waves.getD 2 default).price - (waves.getD 3 default).price ∧
           (waves.getD 3 default).price - (waves.getD 4 default).price ≤
             (waves.getD 2 default).price - (waves.getD 3 default).price) := by
  cases direction <;>
    · simp only [ElliottWaveAnalyzer.validateElliottRules]
      split_ifs <;> simp_all

theorem c5_not_shortest_counterexample :
    wave3NotShortestSpec wavesMidLength .bullish = true ∧
    ElliottWaveAnalyzer.RuleDetail.wave3NotShortest ∉
      (ElliottWaveAnalyzer.validateElliottRules wavesMidLength .bullish).details := by
  decide

/-! Claim C1. -/

lemma addToFirstCluster_eq_none (p : SupportResistanceAnalyzer.PivotPoint)
    (cs : List SupportResistanceAnalyzer.Cluster)
    (h : ∀ c ∈ cs, ¬ (|p.price - c.avgPrice| / c.avgPrice ≤ SupportResistanceAnalyzer.tolerance)) :
    SupportResistanceAnalyzer.addToFirstCluster p cs = none := by
  induction cs with
  | nil => rfl
  | cons c cs ih =>
    unfold SupportResistanceAnalyzer.addToFirstCluster
    rw [if_neg (h c (by simp))]
    rw [ih (fun c' hc' => h c' (by simp [hc']))]
    rfl

lemma foldl_clusterStep_separated (ps : List SupportResistanceAnalyzer.PivotPoint)
    (acc : List SupportResistanceAnalyzer.Cluster)
    (hacc : ∀ c ∈ acc, ∀ p ∈ ps,
      ¬ (|p.price - c.avgPrice| / c.avgPrice ≤ SupportResistanceAnalyzer.tolerance))
    (hsep : ps.Pairwise (fun a b =>
      ¬ (|b.price - a.price| / a.price ≤ SupportResistanceAnalyzer.tolerance))) :
    ps.foldl SupportResistanceAnalyzer.clusterStep acc =
      acc ++ ps.map (fun p => { avgPrice := p.price, points := [p] }) := by
  induction ps generalizing acc with
  | nil => simp
  | cons p ps ih =>
    rw [List.foldl_cons]
    have hnone : SupportResistanceAnalyzer.addToFirstCluster p acc = none :=
      addToFirstCluster_eq_none p acc (fun c hc => hacc c hc p (by simp))
    have hstep : SupportResistanceAnalyzer.clusterStep acc p =
        acc ++ [{ avgPrice := p.price, points := [p] }] := by
      unfold SupportResistanceAnalyzer.clusterStep
      rw [hnone]
    rw [hstep]
    have hacc' : ∀ c ∈ acc ++ [({ avgPrice := p.price, points := [p] } :
        SupportResistanceAnalyzer.Cluster)], ∀ q ∈ ps,
        ¬ (|q.price - c.avgPrice| / c.avgPrice ≤ SupportResistanceAnalyzer.tolerance) := by
      intro c hc q hq
      rcases List.mem_append.1 hc with h1 | h2
      · exact hacc c h1 q (by simp [hq])
      · have hc' : c = ({ avgPrice := p.price, points := [p] } :
            SupportResistanceAnalyzer.Cluster) := by simpa using h2
        subst hc'
        exact (List.pairwise_cons.1 hsep).1 q hq
    rw [ih _ hacc' (List.Pairwise.of_cons hsep)]
    simp

/-- Claim C1 (amended): re-clustering the list of first-pass cluster means
(one pivot per cluster, priced at the cluster's mean) reproduces them as
singleton clusters provided every mean differs from every earlier mean by
more than the 0.5% tolerance relative to the earlier mean.  (The first pass
does not always guarantee this separation, so clustering is not
unconditionally idempotent — see the counterexample.) -/
theorem c1_recluster_separated (ps : List SupportResistanceAnalyzer.PivotPoint)
    (hsep : (reclusterInput (SupportResistanceAnalyzer.clusterPivotPoints ps)).Pairwise
      (fun a b => ¬ (|b.price - a.price| / a.price ≤ SupportResistanceAnalyzer.tolerance))) :
    SupportResistanceAnalyzer.clusterPivotPoints
        (reclusterInput (SupportResistanceAnalyzer.clusterPivotPoints ps)) =
      (reclusterInput (SupportResistanceAnalyzer.clusterPivotPoints ps)).map
        (fun p => { avgPrice := p.price, points := [p] }) := by
  unfold SupportResistanceAnalyzer.clusterPivotPoints
  exact foldl_clusterStep_separated _ [] (by simp) (by
    unfold SupportResistanceAnalyzer.clusterPivotPoints at hsep
    exact hsep)

theorem c1_recluster_separated_witness :
    SupportResistanceAnalyzer.clusterPivotPoints
        (reclusterInput (SupportResistanceAnalyzer.clusterPivotPoints separatedPivots)) =
      (reclusterInput (SupportResistanceAnalyzer.clusterPivotPoints separatedPivots)).map
        (fun p => { avgPrice := p.price, points := [p] }) :=
  c1_recluster_separated separatedPivots (by decide)

theorem c1_not_idempotent_counterexample :
    ((SupportResistanceAnalyzer.clusterPivotPoints mergingPivots).map fun c => c.avgPrice)
        = [10020, 10055] ∧
    (SupportResistanceAnalyzer.clusterPivotPoints
      (reclusterInput (SupportResistanceAnalyzer.clusterPivotPoints mergingPivots))).length
        = 1 := by
  decide

/-! Claim C7. -/

/-- Claim C7 (amended): a returned order block is marked tested exactly when
some candle after the block's index has its low (for a bullish block) or its
high (for a bearish block) inside the block's `[low, high]` band; a candle
whose range merely straddles the band from outside does not count. -/
theorem c7_tested_iff_band_touch (data : List Candle) :
    (SmartMoneyAnalyzer.findOrderBlocks data).all (fun ob =>
      ob.tested == (data.drop (ob.index + 1)).any (fun candle =>
        match ob.type with
        | .bullish => decide (ob.low ≤ candle.low) && decide (candle.low ≤ ob.high)
        | .bearish => decide (ob.low ≤ candle.high) && decide (candle.high ≤ ob.high))) = true := by
  rw [List.all_eq_true]
  intro ob hob
  simp only [SmartMoneyAnalyzer.findOrderBlocks, SmartMoneyAnalyzer.markTestedOrderBlocks,
    List.mem_map] at hob
  obtain ⟨ob₀, _, rfl⟩ := hob
  simp only [SmartMoneyAnalyzer.orderBlockTouched, beq_iff_eq]
  cases ob₀.type <;> simp [SmartMoneyAnalyzer.orderBlockTouched, Bool.and_comm]

theorem c7_range_revisit_counterexample :
    (SmartMoneyAnalyzer.findOrderBlocks threeCandleSeries).any
      (fun ob => !ob.tested && specRangeRevisits threeCandleSeries ob) = true := by
  decide

/-! Claims C3 and C4. -/

lemma levelsFromClusters_mem {kind : SupportResistanceAnalyzer.LevelKind}
    {clusters : List SupportResistanceAnalyzer.Cluster} {data : List Candle}
    {l : SupportResistanceAnalyzer.Level}
    (hl : l ∈ SupportResistanceAnalyzer.levelsFromClusters kind clusters data) :
    2 ≤ l.touches ∧ l.strength = 0 := by
  simp only [SupportResistanceAnalyzer.levelsFromClusters, mem_sortByKeyDesc,
    List.mem_filterMap] at hl
  obtain ⟨c, _, hcl⟩ := hl
  split_ifs at hcl with h2
  have h := Option.some.inj hcl
  subst h
  exact ⟨h2, rfl⟩

/-- The body of `findLevels` written with explicit `Option.bind` (the `do`
block elaborates to exactly this term). -/
lemma findLevels_eq_bind (data : List Candle) :
    SupportResistanceAnalyzer.findLevels data =
      (SupportResistanceAnalyzer.findPsychologicalLevels data).bind fun psych =>
      (SupportResistanceAnalyzer.calculateLevelStrength
        (SupportResistanceAnalyzer.identifySupportLevels
          (SupportResistanceAnalyzer.findPivotPoints data).lows data) data).bind fun support =>
      (SupportResistanceAnalyzer.calculateLevelStrength
        (SupportResistanceAnalyzer.identifyResistanceLevels
          (SupportResistanceAnalyzer.findPivotPoints data).highs data) data).bind fun resistance =>
      some { support := support, resistance := resistance,
             pivotPoints := SupportResistanceAnalyzer.findPivotPoints data,
             keyLevels := psych ++ SupportResistanceAnalyzer.findVolumeLevels data } := rfl

/-- The body of `calculateLevelStrength` as an explicit bind over the last
candle. -/
lemma calculateLevelStrength_some {levels : List SupportResistanceAnalyzer.Level}
    {data : List Candle} {out : List SupportResistanceAnalyzer.Level}
    (h : SupportResistanceAnalyzer.calculateLevelStrength levels data = some out) :
    ∃ f : SupportResistanceAnalyzer.Level → SupportResistanceAnalyzer.Level,
      (∀ l, (f l).touches = l.touches) ∧ out = levels.map f := by
  unfold SupportResistanceAnalyzer.calculateLevelStrength at h
  cases hc : data.getLast? with
  | none => rw [hc] at h; simp at h
  | some c =>
    rw [hc] at h
    have h' := Option.some.inj h
    refine ⟨_, ?_, h'.symm⟩
    intro l
    rfl

lemma calculateLevelStrength_touches {levels : List SupportResistanceAnalyzer.Level}
    {data : List Candle} {out : List SupportResistanceAnalyzer.Level}
    (h : SupportResistanceAnalyzer.calculateLevelStrength levels data = some out) :
    ∀ l ∈ out, ∃ l₀ ∈ levels, l.touches = l₀.touches := by
  obtain ⟨f, hf, rfl⟩ := calculateLevelStrength_some h
  intro l hl
  obtain ⟨l₀, hm, rfl⟩ := List.mem_map.1 hl
  exact ⟨l₀, hm, hf l₀⟩

lemma findPsychologicalLevels_touches {data : List Candle}
    {psych : List SupportResistanceAnalyzer.Level}
    (h : SupportResistanceAnalyzer.findPsychologicalLevels data = some psych) :
    ∀ l ∈ psych, 2 ≤ l.touches := by
  unfold SupportResistanceAnalyzer.findPsychologicalLevels at h
  cases hc : data.getLast? with
  | none => rw [hc] at h; simp at h
  | some c =>
    rw [hc] at h
    have h' := Option.some.inj h
    subst h'
    intro l hl
    obtain ⟨r, _, hr⟩ := List.mem_filterMap.1 hl
    split_ifs at hr with ht
    have h := Option.some.inj hr
    subst h
    exact ht

lemma findVolumeLevels_type {data : List Candle} :
    ∀ l ∈ SupportResistanceAnalyzer.findVolumeLevels data,
      l.type = SupportResistanceAnalyzer.LevelKind.volume := by
  intro l hl
  simp only [SupportResistanceAnalyzer.findVolumeLevels, List.mem_filterMap] at hl
  obtain ⟨node, _, hn⟩ := hl
  split_ifs at hn
  have h := Option.some.inj hn
  subst h
  rfl

/-- Claim C3 (amended): in every result of `findLevels`, the support,
resistance and psychological levels all have at least `minTouchCount = 2`
touches; volume levels carry a touch count but are not filtered by it (see
the counterexample). -/
theorem c3_touches_invariant (data : List Candle) :
    (SupportResistanceAnalyzer.findLevels data).elim True (fun L =>
      (∀ l ∈ L.support, 2 ≤ l.touches) ∧
      (∀ l ∈ L.resistance, 2 ≤ l.touches) ∧
      (∀ l ∈ L.keyLevels,
        l.type = SupportResistanceAnalyzer.LevelKind.psychological → 2 ≤ l.touches)) := by
  cases hfl : SupportResistanceAnalyzer.findLevels data with
  | none => exact trivial
  | some L =>
    rw [findLevels_eq_bind] at hfl
    cases h1 : SupportResistanceAnalyzer.findPsychologicalLevels data with
    | none => rw [h1] at hfl; simp at hfl
    | some psych =>
      rw [h1] at hfl
      simp only [Option.some_bind] at hfl
      cases h2 : SupportResistanceAnalyzer.calculateLevelStrength
          (SupportResistanceAnalyzer.identifySupportLevels
            (SupportResistanceAnalyzer.findPivotPoints data).lows data) data with
      | none => rw [h2] at hfl; simp at hfl
      | some support =>
        rw [h2] at hfl
        simp only [Option.some_bind] at hfl
        cases h3 : SupportResistanceAnalyzer.calculateLevelStrength
            (SupportResistanceAnalyzer.identifyResistanceLevels
              (SupportResistanceAnalyzer.findPivotPoints data).highs data) data with
        | none => rw [h3] at hfl; simp at hfl
        | some resistance =>
          rw [h3] at hfl
          simp only [Option.some_bind, Option.some.injEq] at hfl
          subst hfl
          refine ⟨?_, ?_, ?_⟩
          · intro l hl
            obtain ⟨l₀, hm, ht⟩ := calculateLevelStrength_touches h2 l hl
            rw [ht]
            exact (levelsFromClusters_mem hm).1
          · intro l hl
            obtain ⟨l₀, hm, ht⟩ := calculateLevelStrength_touches h3 l hl
            rw [ht]
            exact (levelsFromClusters_mem hm).1
          · intro l hl hpsy
            rcases List.mem_append.1 hl with hp | hv
            · exact findPsychologicalLevels_touches h1 l hp
            · exact absurd (findVolumeLevels_type l hv) (by rw [hpsy]; simp)

theorem c3_volume_level_touches_counterexample :
    ((SupportResistanceAnalyzer.findLevels twoCandleSeries).elim false fun L =>
      L.keyLevels.any fun l =>
        decide (l.type = SupportResistanceAnalyzer.LevelKind.volume) &&
        decide (l.touches < 2)) = true := by
  decide

lemma isSortedDescBy_of_const {key : α → ℚ} : ∀ {l : List α}, (∀ x ∈ l, key x = 0) →
    isSortedDescBy key l = true
  | [], _ => rfl
  | [_], _ => rfl
  | a :: b :: rest, h => by
    have ha : key a = 0 := h a (by simp)
    have hb : key b = 0 := h b (by simp)
    have hr : isSortedDescBy key (b :: rest) = true :=
      isSortedDescBy_of_const (fun x hx => h x (List.mem_cons_of_mem _ hx))
    simp [isSortedDescBy, ha, hb, hr]

/-- Claim C4 (amended): the support and resistance lists are sorted (inside
`identifySupportLevels`/`identifyResistanceLevels`) by the strength values
they carry at sort time — which are identically 0, so the lists stay in
cluster-creation order; the strengths are recomputed afterwards by
`calculateLevelStrength` without re-sorting, so the lists returned by
`findLevels` are not, in general, in descending order of the final strength
values (see the counterexample). -/
theorem c4_sorted_at_zero_strength (pivots : List SupportResistanceAnalyzer.PivotPoint)
    (data : List Candle) :
    (∀ l ∈ SupportResistanceAnalyzer.identifySupportLevels pivots data, l.strength = 0) ∧
    (∀ l ∈ SupportResistanceAnalyzer.identifyResistanceLevels pivots data, l.strength = 0) ∧
    isSortedDescBy (fun l => l.strength)
      (SupportResistanceAnalyzer.identifySupportLevels pivots data) = true ∧
    isSortedDescBy (fun l => l.strength)
      (SupportResistanceAnalyzer.identifyResistanceLevels pivots data) = true := by
  refine ⟨fun l hl => (levelsFromClusters_mem hl).2,
          fun l hl => (levelsFromClusters_mem hl).2,
          isSortedDescBy_of_const (fun l hl => (levelsFromClusters_mem hl).2),
          isSortedDescBy_of_const (fun l hl => (levelsFromClusters_mem hl).2)⟩

set_option maxRecDepth 8000 in
theorem c4_not_sorted_final_counterexample :
    ((SupportResistanceAnalyzer.findLevels fortyCandleSeries).elim true fun L =>
      isSortedDescBy (fun l => l.strength) L.support) = false := by
  decide

/-! Claim C8. -/

/-- Claim C8 (amended): the psychological-level round-number step is selected
from the magnitude of 1.2 times the latest close (the `maxPrice` end of the
±20% scan range that `findPsychologicalLevels` passes to
`generateRoundNumbers`), not from the close itself: expressed in terms of
the close `p`, the thresholds are `p < 5/6`, `p < 25/3`, `p < 250/3` and
`p < 2500/3`.  The five example prices 0.5, 5, 50, 500, 5000 still map to
steps 0.01, 0.1, 1, 10, 100, but e.g. a price of 0.9 (below 1) gets step
0.1, not 0.01. -/
theorem c8_step_thresholds (p : ℚ) :
    (SupportResistanceAnalyzer.roundStep (p + p * (2/10)) = 1/100 ↔ p < 5/6) ∧
    (SupportResistanceAnalyzer.roundStep (p + p * (2/10)) = 1/10 ↔ 5/6 ≤ p ∧ p < 25/3) ∧
    (SupportResistanceAnalyzer.roundStep (p + p * (2/10)) = 1 ↔ 25/3 ≤ p ∧ p < 250/3) ∧
    (SupportResistanceAnalyzer.roundStep (p + p * (2/10)) = 10 ↔ 250/3 ≤ p ∧ p < 2500/3) ∧
    (SupportResistanceAnalyzer.roundStep (p + p * (2/10)) = 100 ↔ 2500/3 ≤ p) := by
  unfold SupportResistanceAnalyzer.roundStep
  split_ifs with h1 h2 h3 h4 <;>
    refine ⟨?_, ?_, ?_, ?_, ?_⟩ <;> constructor <;> intro h <;>
    first
      | linarith
      | (constructor <;> linarith)

theorem c8_price_below_one_counterexample :
    ((9/10 : ℚ) < 1) ∧
    specStepFromPrice (9/10) = 1/100 ∧
    SupportResistanceAnalyzer.roundStep ((9/10 : ℚ) + (9/10) * (2/10)) = 1/10 ∧
    SupportResistanceAnalyzer.generateRoundNumbers ((9/10 : ℚ) - (9/10) * (2/10))
      ((9/10 : ℚ) + (9/10) * (2/10)) = [7/10, 4/5, 9/10, 1] := by
  decide

/-! Claim C6. -/

lemma getLast?_isSome_of_ne_nil {α : Type _} {l : List α} (h : l ≠ []) :
    ∃ c, l.getLast? = some c := by
  cases hl : l.getLast? with
  | none => exact absurd (List.getLast?_eq_none_iff.1 hl) h
  | some c => exact ⟨c, rfl⟩

lemma bind_isSome {α β : Type _} {o : Option α} (ho : o.isSome = true)
    (f : α → Option β) (hf : ∀ a, (f a).isSome = true) :
    (o.bind f).isSome = true := by
  obtain ⟨a, ha⟩ := Option.isSome_iff_exists.1 ho
  rw [ha]
  exact hf a

lemma bindLast_isSome {α β : Type _} {l : List α} (h : l ≠ [])
    (f : α → Option β) (hf : ∀ c, (f c).isSome = true) :
    (l.getLast?.bind f).isSome = true := by
  obtain ⟨c, hc⟩ := getLast?_isSome_of_ne_nil h
  rw [hc]
  exact hf c

lemma findPsychologicalLevels_isSome {data : List Candle} (h : data ≠ []) :
    (SupportResistanceAnalyzer.findPsychologicalLevels data).isSome = true :=
  bindLast_isSome h _ (fun _ => rfl)

lemma calculateLevelStrength_isSome (levels : List SupportResistanceAnalyzer.Level)
    {data : List Candle} (h : data ≠ []) :
    (SupportResistanceAnalyzer.calculateLevelStrength levels data).isSome = true :=
  bindLast_isSome h _ (fun _ => rfl)

lemma findLevels_isSome {data : List Candle} (h : data ≠ []) :
    (SupportResistanceAnalyzer.findLevels data).isSome = true :=
  bind_isSome (findPsychologicalLevels_isSome h) _
    (fun _ => bind_isSome (calculateLevelStrength_isSome _ h) _
      (fun _ => bind_isSome (calculateLevelStrength_isSome _ h) _ (fun _ => rfl)))

lemma detectCandlestickPatterns_isSome {data : List Candle} (h : data ≠ []) :
    (PatternAnalyzer.detectCandlestickPatterns data).isSome = true := by
  have hlen : data.length ≠ 0 := fun h0 => h (List.length_eq_zero.1 h0)
  have hrec : data.drop (data.length - 5) ≠ [] := by
    rw [Ne, List.drop_eq_nil_iff]
    omega
  exact bindLast_isSome hrec _ (fun _ => rfl)

lemma detectPatterns_isSome {data : List Candle} (h : data ≠ []) :
    (PatternAnalyzer.detectPatterns data).isSome = true :=
  bind_isSome (detectCandlestickPatterns_isSome h) _ (fun _ => rfl)

lemma determineCurrentWave_isSome (struc : Option ElliottWaveAnalyzer.WaveStructure)
    {data : List Candle} (h : data ≠ []) :
    (ElliottWaveAnalyzer.determineCurrentWave struc data).isSome = true := by
  cases struc with
  | none => rfl
  | some s => exact bindLast_isSome h _ (fun _ => rfl)

lemma calculateWaveProjections_isSome (struc : Option ElliottWaveAnalyzer.WaveStructure)
    {data : List Candle} (h : data ≠ []) :
    (ElliottWaveAnalyzer.calculateWaveProjections struc data).isSome = true := by
  cases struc with
  | none => rfl
  | some s => exact bindLast_isSome h _ (fun _ => rfl)

lemma analyzeWave_isSome {data : List Candle} (h : data ≠ []) :
    (ElliottWaveAnalyzer.analyzeWave data).isSome = true := by
  simp only [ElliottWaveAnalyzer.analyzeWave]
  by_cases h5 : (ElliottWaveAnalyzer.identifySwingPoints data).length < 5
  · rw [if_pos h5]
    rfl
  · rw [if_neg h5]
    exact bind_isSome (determineCurrentWave_isSome _ h) _
      (fun _ => bind_isSome (calculateWaveProjections_isSome _ h) _ (fun _ => rfl))

lemma detectBreakOfStructure_isSome (sh sl : List SmartMoneyAnalyzer.SwingPoint)
    {data : List Candle} (h : data ≠ []) :
    (SmartMoneyAnalyzer.detectBreakOfStructure data sh sl).isSome = true :=
  bindLast_isSome h _ (fun _ => rfl)

lemma detectChangeOfCharacter_isSome (sh sl : List SmartMoneyAnalyzer.SwingPoint)
    {data : List Candle} (h : data ≠ []) :
    (SmartMoneyAnalyzer.detectChangeOfCharacter data sh sl).isSome = true := by
  unfold SmartMoneyAnalyzer.detectChangeOfCharacter
  split_ifs
  · rfl
  · exact bindLast_isSome h _ (fun _ => rfl)

lemma analyzeMarketStructure_isSome {data : List Candle} (h : data ≠ []) :
    (SmartMoneyAnalyzer.analyzeMarketStructure data).isSome = true :=
  bind_isSome (detectBreakOfStructure_isSome _ _ h) _
    (fun _ => bind_isSome (detectChangeOfCharacter_isSome _ _ h) _ (fun _ => rfl))

lemma markSweptLiquidity_isSome (zones : List SmartMoneyAnalyzer.LiquidityZone)
    {data : List Candle} (h : data ≠ []) :
    (SmartMoneyAnalyzer.markSweptLiquidity zones data).isSome = true :=
  bindLast_isSome h _ (fun _ => rfl)

lemma findLiquidityZones_isSome {data : List Candle} (h : data ≠ []) :
    (SmartMoneyAnalyzer.findLiquidityZones data).isSome = true :=
  markSweptLiquidity_isSome _ h

lemma analyze_isSome {data : List Candle} (h : data ≠ []) :
    (SmartMoneyAnalyzer.analyze data).isSome = true :=
  bind_isSome (analyzeMarketStructure_isSome h) _
    (fun _ => bind_isSome (findLiquidityZones_isSome h) _ (fun _ => rfl))

/-- Claim C6 (amended): for every nonempty candle series — including series
containing zero-range candles — the analysis entry points `findLevels`,
`detectPatterns`, `analyzeWave` and `analyze` return a result without
raising a fault.  On the empty series `findLevels`, `detectPatterns` and
`analyze` fault on an undefined last-candle dereference (see the
counterexample), while `analyzeWave` still returns its invalid result.
Ratio computations with a possibly-zero denominator never fault: the volume
profile takes an explicit full-attribution fallback, and the remaining ones
(`isDoji`, order-block body ratios, wave ratios) rely on JavaScript
`NaN`/`Infinity` comparison semantics, embedded here explicitly. -/
theorem c6_nonempty_no_fault (data : List Candle) (h : data ≠ []) :
    (SupportResistanceAnalyzer.findLevels data).isSome = true ∧
    (PatternAnalyzer.detectPatterns data).isSome = true ∧
    (ElliottWaveAnalyzer.analyzeWave data).isSome = true ∧
    (SmartMoneyAnalyzer.analyze data).isSome = true :=
  ⟨findLevels_isSome h, detectPatterns_isSome h, analyzeWave_isSome h, analyze_isSome h⟩

theorem c6_nonempty_no_fault_witness :
    (SupportResistanceAnalyzer.findLevels singleFlatCandle).isSome = true ∧
    (PatternAnalyzer.detectPatterns singleFlatCandle).isSome = true ∧
    (ElliottWaveAnalyzer.analyzeWave singleFlatCandle).isSome = true ∧
    (SmartMoneyAnalyzer.analyze singleFlatCandle).isSome = true :=
  c6_nonempty_no_fault singleFlatCandle (by simp [singleFlatCandle])

theorem c6_empty_series_counterexample :
    SupportResistanceAnalyzer.findLevels [] = none ∧
    PatternAnalyzer.detectPatterns [] = none ∧
    SmartMoneyAnalyzer.analyze [] = none ∧
    ElliottWaveAnalyzer.analyzeWave [] ≠ none := by
  refine ⟨rfl, rfl, rfl, ?_⟩
  decide
